import Mathlib

/-!
Verification of the BlueZ D-Bus object manager and scanner
(`bleak/backends/bluezdbus/manager.py`, `bleak/backends/bluezdbus/scanner.py`).

The Python classes are shallowly embedded: dictionaries become association
lists keyed by strings (D-Bus object paths, interface names, property names),
Python sets become duplicate-free lists, callbacks become opaque numeric
identifiers, and remote D-Bus calls become explicit parameters carrying the
reply outcome.  Fallible paths (Python `KeyError` / `TypeError`) are modelled
with `Option` or an explicit success flag.
-/

namespace BleakBlueZ

/-- A D-Bus property value after `unpack_variants`.  The property tables are
dynamically typed in Python; this inductive covers the value shapes the
manager itself inspects (booleans such as `Connected`/`ServicesResolved`,
integers such as `MTU`/`RSSI`, strings such as the `Device`/`Service`/
`Characteristic` parent references and `Transport`, byte strings such as
`Value`, and string lists such as `UUIDs`). -/
inductive Value where
  | vBool : Bool → Value
  | vInt : Int → Value
  | vStr : String → Value
  | vBytes : List Nat → Value
  | vStrList : List String → Value
deriving DecidableEq, Repr

/-- Python `==` on the value shapes above.  Python treats `True == 1` and
`False == 0` as true, which matters for comparisons of property values. -/
def pyEq : Value → Value → Bool
  | .vBool a, .vBool b => a = b
  | .vInt a, .vInt b => a = b
  | .vStr a, .vStr b => a = b
  | .vBytes a, .vBytes b => a = b
  | .vStrList a, .vStrList b => a = b
  | .vBool a, .vInt n => if a then n = 1 else n = 0
  | .vInt n, .vBool a => if a then n = 1 else n = 0
  | _, _ => false

/-- Lookup in a Python dictionary modelled as an association list
(first matching key wins; dictionaries never hold duplicate keys). -/
def alGet {β : Type} : List (String × β) → String → Option β
  | [], _ => none
  | kv :: rest, k => if kv.1 = k then some kv.2 else alGet rest k

/-- Python dictionary assignment `d[k] = v`: replace the first binding of `k`
in place, or append a new binding. -/
def alSet {β : Type} : List (String × β) → String → β → List (String × β)
  | [], k, v => [(k, v)]
  | kv :: rest, k, v =>
    if kv.1 = k then (k, v) :: rest else kv :: alSet rest k v

/-- Python dictionary deletion `del d[k]` (no-op when the key is absent; the
callers in the source wrap the deletion in `try`/`except KeyError: pass`). -/
def alDel {β : Type} : List (String × β) → String → List (String × β)
  | [], _ => []
  | kv :: rest, k => if kv.1 = k then rest else kv :: alDel rest k

/-- Python `set.add` on a set modelled as a duplicate-free list. -/
def setAdd {α : Type} [DecidableEq α] (l : List α) (x : α) : List α :=
  if x ∈ l then l else l ++ [x]

/-- Python `s.startswith(p)` on strings (character-list comparison). -/
def pyStartsWith (s p : String) : Bool :=
  p.data.isPrefixOf s.data

/-- A property dictionary: property name → value. -/
def PropDict : Type := List (String × Value)

instance : DecidableEq PropDict := by unfold PropDict; infer_instance

/-- Lookup of a property value (`props.get(name)` / `props[name]`). -/
def pget (p : PropDict) (k : String) : Option Value := alGet p k

/-- interface name → property dictionary, for one object path. -/
def IfaceDict : Type := List (String × PropDict)

instance : DecidableEq IfaceDict := by unfold IfaceDict; infer_instance

-- Interface name constants.  These come from `bleak/backends/bluezdbus/defs.py`,
-- which is not part of the given sources; the string values are the standard
-- BlueZ D-Bus interface names named throughout the spec.

/-- Modelled from the spec: the device interface name from `defs.py`
(`defs.DEVICE_INTERFACE`), the standard BlueZ name. -/
def DEVICE_INTERFACE : String := "org.bluez.Device1"

/-- Modelled from the spec: the GATT service interface name from `defs.py`
(`defs.GATT_SERVICE_INTERFACE`). -/
def GATT_SERVICE_INTERFACE : String := "org.bluez.GattService1"

/-- Modelled from the spec: the GATT characteristic interface name from
`defs.py` (`defs.GATT_CHARACTERISTIC_INTERFACE`). -/
def GATT_CHARACTERISTIC_INTERFACE : String := "org.bluez.GattCharacteristic1"

/-- Modelled from the spec: the GATT descriptor interface name from `defs.py`
(`defs.GATT_DESCRIPTOR_INTERFACE`). -/
def GATT_DESCRIPTOR_INTERFACE : String := "org.bluez.GattDescriptor1"

/-- The four dictionaries that mirror the daemon's object tree:
`self._properties` (path → interface → property → value) and the three
derived hierarchy index maps `self._service_map`, `self._characteristic_map`,
`self._descriptor_map` (parent path → set of child paths). -/
structure GattTables where
  properties : List (String × IfaceDict)
  service_map : List (String × List String)
  characteristic_map : List (String × List String)
  descriptor_map : List (String × List String)
deriving DecidableEq

/-- Tables with every dictionary empty (the state right after the four
`.clear()` calls in `async_init`). -/
def emptyTables : GattTables := ⟨[], [], [], []⟩

/-- `self._properties[path][iface]`: the property dictionary of one interface
of one object, `none` when either key is absent. -/
def getIface (props : List (String × IfaceDict)) (path iface : String) :
    Option PropDict :=
  (alGet props path).bind (fun d => alGet d iface)

/-- Membership of a child path in a hierarchy index map
(`path in m.get(parent, set())`). -/
def inIndex (m : List (String × List String)) (parent child : String) : Prop :=
  child ∈ (alGet m parent).getD []

instance (m : List (String × List String)) (parent child : String) :
    Decidable (inIndex m parent child) := by unfold inIndex; infer_instance

/-- `m.setdefault(parent, set()).add(child)`. -/
def indexAdd (m : List (String × List String)) (parent child : String) :
    List (String × List String) :=
  alSet m parent (setAdd ((alGet m parent).getD []) child)

/-- One entry of the `GetManagedObjects` reply body: an object path together
with its interface → properties dictionary (after `unpack_variants`). -/
def BulkEntry : Type := String × List (String × PropDict)

/-- The indexing decision for one GATT interface of one `GetManagedObjects`
entry (`async_init`, lines 241–267): `props.get(ifaceName)` followed by the
Python truthiness test (`if service_props:` — an absent interface or an empty
property dictionary means no index update) and the parent lookup
`service_props[parentKey]`.  Results: `some (some d)` — index the path under
parent `d`; `some none` — no index action; `none` — the lookup raises
`KeyError` (the parent reference is absent), or the parent is not a string
(D-Bus types it as an object path, so this cannot arrive through the typed
bus), and the handler crashes. -/
def gattParent (ifaces : List (String × PropDict)) (ifaceName parentKey : String) :
    Option (Option String) :=
  match alGet ifaces ifaceName with
  | none => some none
  | some props =>
    if props = [] then some none
    else
      match pget props parentKey with
      | some (.vStr d) => some (some d)
      | _ => none

/-- Insertion of one `GetManagedObjects` entry into the tables
(`async_init`, lines 237–267): store the whole interface dictionary under the
path (`self._properties[path] = props`), then run the service,
characteristic and descriptor index checks in order.  A `KeyError` on a
parent lookup aborts the remaining checks: the flag is `false` and the
tables built so far are kept. -/
def bulkInsert (t : GattTables) (e : BulkEntry) : GattTables × Bool :=
  let t := { t with properties := alSet t.properties e.1 e.2 }
  match gattParent e.2 GATT_SERVICE_INTERFACE "Device" with
  | none => (t, false)
  | some sDec =>
    let t := match sDec with
      | some d => { t with service_map := indexAdd t.service_map d e.1 }
      | none => t
    match gattParent e.2 GATT_CHARACTERISTIC_INTERFACE "Service" with
    | none => (t, false)
    | some cDec =>
      let t := match cDec with
        | some s => { t with characteristic_map := indexAdd t.characteristic_map s e.1 }
        | none => t
      match gattParent e.2 GATT_DESCRIPTOR_INTERFACE "Characteristic" with
      | none => (t, false)
      | some dDec =>
        match dDec with
        | some c => ({ t with descriptor_map := indexAdd t.descriptor_map c e.1 }, true)
        | none => (t, true)

/-- The population loop of `async_init` over the `GetManagedObjects` reply
(`for path, interfaces in reply.body[0].items():`).  Returns the resulting
tables and `true` on success; on a crash the partially populated tables are
returned with `false`. -/
def bulkFold : List BulkEntry → GattTables → GattTables × Bool
  | [], t => (t, true)
  | e :: rest, t =>
    match bulkInsert t e with
    | (t', true) => bulkFold rest t'
    | (t', false) => (t', false)

/-- One interface of an `InterfacesAdded` signal (`_parse_msg`, lines
676–694): `self._properties.setdefault(obj_path, {})[interface] =
unpacked_props`, then the hierarchy index update for the three GATT
interfaces.  As in `bulkInsert`, a missing or non-string parent reference
(Python `KeyError` on `service_props["Device"]` etc.) is a crash: the
property table write has already happened, the index write has not. -/
def addIface (t : GattTables) (obj_path iface : String) (props : PropDict) :
    GattTables × Bool :=
  let t := { t with
    properties := alSet t.properties obj_path
      (alSet ((alGet t.properties obj_path).getD []) iface props) }
  if iface = GATT_SERVICE_INTERFACE then
    match pget props "Device" with
    | some (.vStr d) => ({ t with service_map := indexAdd t.service_map d obj_path }, true)
    | _ => (t, false)
  else if iface = GATT_CHARACTERISTIC_INTERFACE then
    match pget props "Service" with
    | some (.vStr s) =>
      ({ t with characteristic_map := indexAdd t.characteristic_map s obj_path }, true)
    | _ => (t, false)
  else if iface = GATT_DESCRIPTOR_INTERFACE then
    match pget props "Characteristic" with
    | some (.vStr c) =>
      ({ t with descriptor_map := indexAdd t.descriptor_map c obj_path }, true)
    | _ => (t, false)
  else
    (t, true)

/-- The `InterfacesAdded` branch of `_parse_msg` restricted to its effect on
the four tables (the advertisement fan-out for the device interface is
modelled separately as a dispatch loop).  Interfaces are processed in
dictionary order; a crash stops the loop and keeps the state so far. -/
def applyInterfacesAdded (t : GattTables) (obj_path : String) :
    List (String × PropDict) → GattTables
  | [] => t
  | (iface, props) :: rest =>
    match addIface t obj_path iface props with
    | (t', true) => applyInterfacesAdded t' obj_path rest
    | (t', false) => t'

/-- One interface of an `InterfacesRemoved` signal (`_parse_msg`, lines
708–733) restricted to the four tables: delete the interface from the
property table (`KeyError` is passed over), then, per interface kind, delete
the object's own hierarchy-index entry (`del self._service_map[obj_path]`
etc., again with `KeyError` passed over).  The device branch additionally
evicts the services cache and fans out device-removed callbacks; both are
modelled separately. -/
def removeIface (t : GattTables) (obj_path iface : String) : GattTables :=
  let t := { t with
    properties := match alGet t.properties obj_path with
      | some d => alSet t.properties obj_path (alDel d iface)
      | none => t.properties }
  if iface = DEVICE_INTERFACE then
    { t with service_map := alDel t.service_map obj_path }
  else if iface = GATT_SERVICE_INTERFACE then
    { t with characteristic_map := alDel t.characteristic_map obj_path }
  else if iface = GATT_CHARACTERISTIC_INTERFACE then
    { t with descriptor_map := alDel t.descriptor_map obj_path }
  else
    t

/-- The `InterfacesRemoved` branch of `_parse_msg` restricted to the four
tables (`for interface in interfaces:`). -/
def applyInterfacesRemoved (t : GattTables) (obj_path : String) :
    List String → GattTables
  | [] => t
  | iface :: rest => applyInterfacesRemoved (removeIface t obj_path iface) obj_path rest

/-- The `PropertiesChanged` branch of `_parse_msg` restricted to the property
table (lines 739–754): when the path/interface pair is currently present,
apply the changed values (`self_interface.update(...)`) and delete the
invalidated names; otherwise the signal is discarded. -/
def applyPropertiesChanged (t : GattTables) (path iface : String)
    (changed : List (String × Value)) (invalidated : List String) : GattTables :=
  match getIface t.properties path iface with
  | none => t
  | some d =>
    let d := changed.foldl (fun d kv => alSet d kv.1 kv.2) d
    let d := invalidated.foldl (fun d k => alDel d k) d
    { t with properties :=
        alSet t.properties path (alSet ((alGet t.properties path).getD []) iface d) }

/-- One index map agrees exactly with the property table for one GATT
interface and its parent-reference property: a (parent, child) pair is in
the index iff the child's property-table entry currently carries the
interface with that (string-valued) parent recorded. -/
def indexMatches (P : List (String × IfaceDict)) (ifaceName parentKey : String)
    (m : List (String × List String)) : Prop :=
  ∀ d p, inIndex m d p ↔
    ∃ props, getIface P p ifaceName = some props ∧
      pget props parentKey = some (.vStr d)

/-- The "no missing entries" half of `indexMatches`. -/
def completeFor (P : List (String × IfaceDict)) (ifaceName parentKey : String)
    (m : List (String × List String)) : Prop :=
  ∀ p props d, getIface P p ifaceName = some props →
    pget props parentKey = some (.vStr d) → inIndex m d p

/-- The spec's Hierarchy Index invariant: each of the three index maps
contains exactly the set of paths whose property-table entry currently
carries the corresponding GATT interface with its parent-reference
property. -/
def hierarchyInvariant (t : GattTables) : Prop :=
  indexMatches t.properties GATT_SERVICE_INTERFACE "Device" t.service_map ∧
  indexMatches t.properties GATT_CHARACTERISTIC_INTERFACE "Service" t.characteristic_map ∧
  indexMatches t.properties GATT_DESCRIPTOR_INTERFACE "Characteristic" t.descriptor_map

/-- The "no missing entries" half of `hierarchyInvariant`: every path whose
property-table entry carries a GATT interface with a string parent reference
is indexed under that parent. -/
def indexComplete (t : GattTables) : Prop :=
  completeFor t.properties GATT_SERVICE_INTERFACE "Device" t.service_map ∧
  completeFor t.properties GATT_CHARACTERISTIC_INTERFACE "Service" t.characteristic_map ∧
  completeFor t.properties GATT_DESCRIPTOR_INTERFACE "Characteristic" t.descriptor_map

-- ----------------------------------------------------------------------
-- Callback registrations.  Python callables are opaque; they are modelled
-- by numeric identifiers.

/-- `CallbackAndState`: an advertisement callback together with the adapter
path it was registered for. -/
structure CallbackAndState where
  callback : Nat
  adapter_path : String
deriving DecidableEq

/-- `DeviceRemovedCallbackAndState`: a device-removed callback together with
the adapter path it was registered for. -/
structure DeviceRemovedCallbackAndState where
  callback : Nat
  adapter_path : String
deriving DecidableEq

/-- `DeviceWatcher`: a device path with its connected-changed and
characteristic-value-changed callbacks. -/
structure DeviceWatcher where
  device_path : String
  on_connected_changed : Nat
  on_characteristic_value_changed : Nat
deriving DecidableEq

-- ----------------------------------------------------------------------
-- GATT handle objects.  Their classes (`BleakGATTServiceBlueZDBus`,
-- `BleakGATTCharacteristicBlueZDBus`, `BleakGATTDescriptorBlueZDBus`,
-- `BleakGATTServiceCollection`) live in repository files that are not under
-- `src/`; the manager only constructs them from raw property dictionaries
-- and identity strings.

/-- Modelled from the spec: `BleakGATTServiceBlueZDBus` (its class is not in
`src/`); per the spec the core supplies handle objects "only the raw
property dictionaries and identity strings they need", so the handle stores
exactly the constructor arguments the manager passes. -/
structure BleakGATTServiceBlueZDBus where
  obj : PropDict
  path : String
deriving DecidableEq

/-- Modelled from the spec: the service's UUID, read from its raw property
dictionary. -/
def BleakGATTServiceBlueZDBus.uuid (s : BleakGATTServiceBlueZDBus) : Option Value :=
  pget s.obj "UUID"

/-- Modelled from the spec: the service's handle identity; the defining
class is not in `src/`, so the object path stands in as the identity
string. -/
def BleakGATTServiceBlueZDBus.handle (s : BleakGATTServiceBlueZDBus) : String :=
  s.path

/-- Modelled from the spec: `BleakGATTCharacteristicBlueZDBus` (not in
`src/`), storing the constructor arguments passed by `get_services`,
including the usable payload size computed from the `MTU` property. -/
structure BleakGATTCharacteristicBlueZDBus where
  obj : PropDict
  path : String
  service_uuid : Option Value
  service_handle : String
  max_write_without_response_size : Int
deriving DecidableEq

/-- Modelled from the spec: the characteristic's UUID, read from its raw
property dictionary. -/
def BleakGATTCharacteristicBlueZDBus.uuid (c : BleakGATTCharacteristicBlueZDBus) :
    Option Value :=
  pget c.obj "UUID"

/-- Modelled from the spec: the characteristic's handle identity; the object
path stands in as the identity string. -/
def BleakGATTCharacteristicBlueZDBus.handle (c : BleakGATTCharacteristicBlueZDBus) :
    String :=
  c.path

/-- Modelled from the spec: `BleakGATTDescriptorBlueZDBus` (not in `src/`),
storing the constructor arguments passed by `get_services`. -/
structure BleakGATTDescriptorBlueZDBus where
  obj : PropDict
  path : String
  characteristic_uuid : Option Value
  characteristic_handle : String
deriving DecidableEq

/-- Modelled from the spec: `BleakGATTServiceCollection` (not in `src/`),
accumulating the handles added by `add_service`, `add_characteristic` and
`add_descriptor`. -/
structure BleakGATTServiceCollection where
  services : List BleakGATTServiceBlueZDBus
  characteristics : List BleakGATTCharacteristicBlueZDBus
  descriptors : List BleakGATTDescriptorBlueZDBus
deriving DecidableEq

/-- Modelled from the spec: `add_service`. -/
def BleakGATTServiceCollection.add_service (sc : BleakGATTServiceCollection)
    (s : BleakGATTServiceBlueZDBus) : BleakGATTServiceCollection :=
  { sc with services := sc.services ++ [s] }

/-- Modelled from the spec: `add_characteristic`. -/
def BleakGATTServiceCollection.add_characteristic (sc : BleakGATTServiceCollection)
    (c : BleakGATTCharacteristicBlueZDBus) : BleakGATTServiceCollection :=
  { sc with characteristics := sc.characteristics ++ [c] }

/-- Modelled from the spec: `add_descriptor`. -/
def BleakGATTServiceCollection.add_descriptor (sc : BleakGATTServiceCollection)
    (d : BleakGATTDescriptorBlueZDBus) : BleakGATTServiceCollection :=
  { sc with descriptors := sc.descriptors ++ [d] }

/-- The empty collection `BleakGATTServiceCollection()`. -/
def emptyServiceCollection : BleakGATTServiceCollection := ⟨[], [], []⟩

/-- The usable payload size of a characteristic (`get_services`, line 564):
`char_props.get("MTU", 23) - 3` — the `MTU` property when present, otherwise
the BLE-spec minimum of 23, minus the 3-byte header.  A present but
non-integer `MTU` would make the Python subtraction raise; that is `none`. -/
def charPayloadSize (char_props : PropDict) : Option Int :=
  match pget char_props "MTU" with
  | none => some (23 - 3)
  | some (.vInt n) => some (n - 3)
  | some _ => none

-- ----------------------------------------------------------------------
-- Manager state and bus.

/-- The D-Bus connection; `id` distinguishes distinct connections (a manager
replaces, never reuses, its bus on reconnect). -/
structure Bus where
  id : Nat
  connected : Bool
deriving DecidableEq

/-- The mutable state of `BlueZManager`: the bus, the four object-tree
tables, the registration collections and the services cache.
(`self._bus_lock` serializes the public operations and has no state of its
own.) -/
structure ManagerState where
  bus : Option Bus
  tables : GattTables
  advertisement_callbacks : List CallbackAndState
  device_removed_callbacks : List DeviceRemovedCallbackAndState
  device_watchers : List DeviceWatcher
  condition_callbacks : List Nat
  services_cache : List (String × BleakGATTServiceCollection)
deriving DecidableEq

/-- `if self._bus and self._bus.connected:` (`async_init`, line 177). -/
def busIsConnected (st : ManagerState) : Bool :=
  match st.bus with
  | some b => b.connected
  | none => false

/-- `async_init`: when the bus is already connected, return immediately.
Otherwise clear the services cache, connect a fresh bus, install the signal
handler and the three match rules, call `GetManagedObjects`, clear the four
tables and repopulate them from the reply, and save the bus.  `setupOk`
stands for the add-match subscriptions and the `GetManagedObjects` call
itself succeeding; when any of those fail, or when populating crashes, the
new bus is disconnected and `self._bus` keeps its old value. -/
def async_init (st : ManagerState) (newBus : Bus) (setupOk : Bool)
    (reply : List BulkEntry) : ManagerState :=
  if busIsConnected st then st
  else
    let st1 := { st with services_cache := [] }
    if setupOk = false then st1
    else
      match bulkFold reply emptyTables with
      | (t, true) => { st1 with tables := t, bus := some newBus }
      | (t, false) => { st1 with tables := t }

/-- The steps of a successful `async_init` run on a not-yet-connected
manager, in program order (lines 176–277). -/
inductive InitStep where
  | checkAlreadyConnected
  | clearServicesCache
  | connectBus
  | addSignalHandler
  | addMatchInterfacesAdded
  | addMatchInterfacesRemoved
  | addMatchPropertiesChanged
  | callGetManagedObjects
  | clearTables
  | populateTables
  | saveBus
deriving DecidableEq

/-- The order in which a successful `async_init` performs its steps:
the three match rules are installed before `GetManagedObjects` is called,
and the four tables are cleared after the call returns, immediately before
they are repopulated from the reply (lines 220–239). -/
def asyncInitSuccessTrace : List InitStep :=
  [.checkAlreadyConnected, .clearServicesCache, .connectBus, .addSignalHandler,
   .addMatchInterfacesAdded, .addMatchInterfacesRemoved, .addMatchPropertiesChanged,
   .callGetManagedObjects, .clearTables, .populateTables, .saveBus]

-- ----------------------------------------------------------------------
-- Scan session start.

/-- A D-Bus variant as passed to `SetDiscoveryFilter`: a type signature
string and a value. -/
structure Variant where
  sig : String
  val : Value
deriving DecidableEq

/-- An `or pattern` for the advertisement monitor: advertising-data type,
start position, and content bytes. -/
structure OrPattern where
  data_type : Nat
  start_position : Nat
  content : List Nat
deriving DecidableEq

/-- The errors a scan start can raise. -/
inductive ScanError where
  | adapterNotFound (message : String)
  | remoteCallFailed (member errorName errorMessage : String)
  | passiveScanNotSupported (message : String)
deriving DecidableEq

/-- The outcome of a scan-start call: the raised error or success, the
manager state afterwards, and the remote D-Bus members called, in order. -/
structure ScanOutcome where
  result : Except ScanError Unit
  state : ManagerState
  remote_calls : List String

/-- Python `str.split(sep)` on a character list: split at every separator,
keeping empty components. -/
def splitChars (sep : Char) : List Char → List (List Char)
  | [] => [[]]
  | c :: rest =>
    match splitChars sep rest with
    | [] => if c = sep then [[], []] else [[c]]
    | h :: t => if c = sep then [] :: h :: t else (c :: h) :: t

/-- `adapter_path.split('/')[-1]` (the human-readable adapter name used in
the not-found error message). -/
def lastPathComponent (p : String) : String :=
  ((splitChars '/' p.data).map String.mk).getLastD ""

/-- The message of the "adapter not found" error
(`f"adapter '{adapter_path.split('/')[-1]}' not found"`). -/
def adapterNotFoundMessage (adapter_path : String) : String :=
  "adapter '" ++ lastPathComponent adapter_path ++ "' not found"

/-- `active_scan` (lines 279–375): check the adapter against the property
table, append both callback registrations, then call `SetDiscoveryFilter`
and `StartDiscovery`; on a remote error, remove both registrations again
before the error propagates.  `setFilterReply` / `startDiscoveryReply` carry
the remote error (name, message) when the respective call fails, `none` when
it succeeds; a failed `SetDiscoveryFilter` means `StartDiscovery` is never
called.  The returned stop closure performs no state change at start time
and is not modelled. -/
def active_scan (st : ManagerState) (adapter_path : String)
    (filters : List (String × Variant))
    (advertisement_callback device_removed_callback : Nat)
    (setFilterReply startDiscoveryReply : Option (String × String)) : ScanOutcome :=
  if (alGet st.tables.properties adapter_path).isNone then
    { result := .error (.adapterNotFound (adapterNotFoundMessage adapter_path)),
      state := st, remote_calls := [] }
  else
    let callback_and_state : CallbackAndState :=
      ⟨advertisement_callback, adapter_path⟩
    let device_removed_callback_and_state : DeviceRemovedCallbackAndState :=
      ⟨device_removed_callback, adapter_path⟩
    let st1 := { st with
      advertisement_callbacks := st.advertisement_callbacks ++ [callback_and_state],
      device_removed_callbacks :=
        st.device_removed_callbacks ++ [device_removed_callback_and_state] }
    let rollback : ManagerState := { st1 with
      advertisement_callbacks := st1.advertisement_callbacks.erase callback_and_state,
      device_removed_callbacks :=
        st1.device_removed_callbacks.erase device_removed_callback_and_state }
    match setFilterReply with
    | some (en, em) =>
      { result := .error (.remoteCallFailed "SetDiscoveryFilter" en em),
        state := rollback, remote_calls := ["SetDiscoveryFilter"] }
    | none =>
      match startDiscoveryReply with
      | some (en, em) =>
        { result := .error (.remoteCallFailed "StartDiscovery" en em),
          state := rollback, remote_calls := ["SetDiscoveryFilter", "StartDiscovery"] }
      | none =>
        { result := .ok (), state := st1,
          remote_calls := ["SetDiscoveryFilter", "StartDiscovery"] }

/-- The diagnostic raised when `RegisterMonitor` is unknown to the daemon. -/
def passiveScanUnsupportedMessage : String :=
  "passive scanning on Linux requires BlueZ >= 5.55 with --experimental enabled and Linux kernel >= 5.10"

/-- `passive_scan` (lines 377–472): check the adapter against the property
table, append both callback registrations, then call `RegisterMonitor` with
a process- and instance-unique monitor path; on a remote error — translated
to the capability diagnostic when the daemon lacks the method — remove both
registrations again before the error propagates.  On success the monitor is
exported after the daemon acknowledged registration. -/
def passive_scan (st : ManagerState) (adapter_path : String)
    (filters : List OrPattern)
    (advertisement_callback device_removed_callback : Nat)
    (pid monitorId : Nat)
    (registerMonitorReply : Option (String × String)) : ScanOutcome :=
  if (alGet st.tables.properties adapter_path).isNone then
    { result := .error (.adapterNotFound (adapterNotFoundMessage adapter_path)),
      state := st, remote_calls := [] }
  else
    let callback_and_state : CallbackAndState :=
      ⟨advertisement_callback, adapter_path⟩
    let device_removed_callback_and_state : DeviceRemovedCallbackAndState :=
      ⟨device_removed_callback, adapter_path⟩
    let st1 := { st with
      advertisement_callbacks := st.advertisement_callbacks ++ [callback_and_state],
      device_removed_callbacks :=
        st.device_removed_callbacks ++ [device_removed_callback_and_state] }
    let rollback : ManagerState := { st1 with
      advertisement_callbacks := st1.advertisement_callbacks.erase callback_and_state,
      device_removed_callbacks :=
        st1.device_removed_callbacks.erase device_removed_callback_and_state }
    let _monitor_path := "/org/bleak/" ++ toString pid ++ "/" ++ toString monitorId
    match registerMonitorReply with
    | some (en, em) =>
      if en = "org.freedesktop.DBus.Error.UnknownMethod" then
        { result := .error (.passiveScanNotSupported passiveScanUnsupportedMessage),
          state := rollback, remote_calls := ["RegisterMonitor"] }
      else
        { result := .error (.remoteCallFailed "RegisterMonitor" en em),
          state := rollback, remote_calls := ["RegisterMonitor"] }
    | none =>
      { result := .ok (), state := st1, remote_calls := ["RegisterMonitor"] }

/-- The rollback guarantee of a failed scan start: the two registration
lists hold exactly their prior contents (same entries, same multiplicities),
and — whenever the appended registrations were not already present, as with
the fresh closures every scan start creates — the lists are identical to the
prior ones. -/
def registrationsRestored (st st' : ManagerState) (cas : CallbackAndState)
    (dcas : DeviceRemovedCallbackAndState) : Prop :=
  st'.advertisement_callbacks.Perm st.advertisement_callbacks ∧
  st'.device_removed_callbacks.Perm st.device_removed_callbacks ∧
  (cas ∉ st.advertisement_callbacks →
    st'.advertisement_callbacks = st.advertisement_callbacks) ∧
  (dcas ∉ st.device_removed_callbacks →
    st'.device_removed_callbacks = st.device_removed_callbacks)

-- ----------------------------------------------------------------------
-- Condition waiter and snapshot builder.

/-- The outcome of the initial property test in `_wait_condition` (lines
626–630): the property already equals the target (`immediate`), it does not
(`suspended` — a re-check closure will be registered), or the device path,
device interface or property name is absent and the lookup raises
(`keyError`). -/
inductive WaitCheck where
  | immediate
  | suspended
  | keyError
deriving DecidableEq

/-- The initial property test of `_wait_condition`:
`self._properties[device_path][defs.DEVICE_INTERFACE][property_name] ==
property_value`. -/
def waitConditionCheck (t : GattTables) (device_path property_name : String)
    (property_value : Value) : WaitCheck :=
  match getIface t.properties device_path DEVICE_INTERFACE with
  | none => .keyError
  | some device_props =>
    match pget device_props property_name with
    | none => .keyError
    | some current => if pyEq current property_value then .immediate else .suspended

/-- How a suspended `_wait_condition` call completes: woken by its event, or
cancelled. -/
inductive WaitExit where
  | wake
  | cancel
deriving DecidableEq

/-- The result of a `_wait_condition` call: how the initial test went, and
the manager state after the call completed. -/
structure WaitRunResult where
  check : WaitCheck
  state : ManagerState
deriving DecidableEq

/-- `_wait_condition` (lines 615–647): return immediately when the property
already equals the target; otherwise add a fresh re-check closure (`cb`) to
`self._condition_callbacks`, await the event, and remove the closure in the
`finally` block — on normal wake-up and on cancellation alike. -/
def waitConditionRun (st : ManagerState) (device_path property_name : String)
    (property_value : Value) (cb : Nat) (exitKind : WaitExit) : WaitRunResult :=
  match waitConditionCheck st.tables device_path property_name property_value with
  | .immediate => ⟨.immediate, st⟩
  | .keyError => ⟨.keyError, st⟩
  | .suspended =>
    let st1 := { st with condition_callbacks := setAdd st.condition_callbacks cb }
    match exitKind with
    | .wake => ⟨.suspended, { st1 with condition_callbacks := st1.condition_callbacks.erase cb }⟩
    | .cancel => ⟨.suspended, { st1 with condition_callbacks := st1.condition_callbacks.erase cb }⟩

/-- The snapshot walk of `get_services` (lines 539–582): from the device
path through the service, characteristic and descriptor index maps, reading
each path's property-table entry (a missing entry raises `KeyError`:
`none`), and building the handle objects with exactly the constructor
arguments the source passes. -/
def buildServiceCollection (t : GattTables) (device_path : String) :
    Option BleakGATTServiceCollection :=
  ((alGet t.service_map device_path).getD []).foldlM
    (fun sc service_path => do
      let service_props ← getIface t.properties service_path GATT_SERVICE_INTERFACE
      let service : BleakGATTServiceBlueZDBus := ⟨service_props, service_path⟩
      let sc := sc.add_service service
      ((alGet t.characteristic_map service_path).getD []).foldlM
        (fun sc char_path => do
          let char_props ← getIface t.properties char_path GATT_CHARACTERISTIC_INTERFACE
          let payload ← charPayloadSize char_props
          let char : BleakGATTCharacteristicBlueZDBus :=
            ⟨char_props, char_path, service.uuid, service.handle, payload⟩
          let sc := sc.add_characteristic char
          ((alGet t.descriptor_map char_path).getD []).foldlM
            (fun sc desc_path => do
              let desc_props ← getIface t.properties desc_path GATT_DESCRIPTOR_INTERFACE
              pure (sc.add_descriptor ⟨desc_props, desc_path, char.uuid, char.handle⟩))
            sc)
        sc)
    emptyServiceCollection

/-- How a `get_services` call went. -/
inductive GetServicesStatus where
  | cachedResult
  | suspended
  | waitKeyError
  | built
  | buildKeyError
deriving DecidableEq

/-- The result of a `get_services` call. -/
structure GetServicesResult where
  status : GetServicesStatus
  services : Option BleakGATTServiceCollection
  state : ManagerState
deriving DecidableEq

/-- `get_services` (lines 514–586): with `use_cached` set, return a cached
collection immediately when one exists; otherwise wait on
`"ServicesResolved" == True` (a call in a state where the property is not
yet true suspends: `suspended`), then walk the tables, cache the new
collection under the device path and return it. -/
def get_services (st : ManagerState) (device_path : String) (use_cached : Bool) :
    GetServicesResult :=
  match (if use_cached then alGet st.services_cache device_path else none) with
  | some services => ⟨.cachedResult, some services, st⟩
  | none =>
    match waitConditionCheck st.tables device_path "ServicesResolved" (.vBool true) with
    | .keyError => ⟨.waitKeyError, none, st⟩
    | .suspended => ⟨.suspended, none, st⟩
    | .immediate =>
      match buildServiceCollection st.tables device_path with
      | none => ⟨.buildKeyError, none, st⟩
      | some services =>
        ⟨.built, some services,
         { st with services_cache := alSet st.services_cache device_path services }⟩

-- ----------------------------------------------------------------------
-- Callback dispatch loops of `_parse_msg`.
--
-- A Python `for x in lst:` over a list that the loop body may mutate reads
-- `lst[i]` for `i = 0, 1, 2, …` until the index falls off the live list;
-- `runAdvCallbacksAux` embeds that cursor semantics (with explicit fuel,
-- since a body that keeps appending loops forever in Python too).  A loop
-- over `lst.copy()` iterates the snapshot taken when the loop starts.
-- A callback's effect on the registration collection it was invoked from is
-- an environment function from the callback's identifier.

/-- The state of one `_run_advertisement_callbacks` dispatch: the live
`self._advertisement_callbacks` list and the log of callbacks invoked so
far. -/
structure AdvDispatchState where
  callbacks : List CallbackAndState
  invoked : List Nat
deriving DecidableEq

/-- The loop of `_run_advertisement_callbacks` (lines 801–807): iterate the
live registration list by cursor, skip callbacks whose adapter path is not
a path prefix of the device path, and invoke the rest (each invocation may
mutate the live list through `env`). -/
def runAdvCallbacksAux (env : Nat → List CallbackAndState → List CallbackAndState)
    (device_path : String) : Nat → Nat → AdvDispatchState → AdvDispatchState
  | 0, _, s => s
  | fuel + 1, i, s =>
    match s.callbacks[i]? with
    | none => s
    | some cs =>
      if pyStartsWith device_path cs.adapter_path then
        runAdvCallbacksAux env device_path fuel (i + 1)
          { callbacks := env cs.callback s.callbacks,
            invoked := s.invoked ++ [cs.callback] }
      else
        runAdvCallbacksAux env device_path fuel (i + 1) s

/-- `_run_advertisement_callbacks`, started on registration list `l`. -/
def runAdvCallbacks (env : Nat → List CallbackAndState → List CallbackAndState)
    (device_path : String) (l : List CallbackAndState) (fuel : Nat) :
    AdvDispatchState :=
  runAdvCallbacksAux env device_path fuel 0 ⟨l, []⟩

/-- The claim's property for the advertisement dispatch: every callback
registered (and adapter-matching) at the start of the dispatch is invoked,
whatever the callbacks do to the registration list meanwhile. -/
def advDispatchInvokesAll (env : Nat → List CallbackAndState → List CallbackAndState)
    (device_path : String) (l : List CallbackAndState) (fuel : Nat) : Prop :=
  ∀ cs ∈ l, pyStartsWith device_path cs.adapter_path = true →
    cs.callback ∈ (runAdvCallbacks env device_path l fuel).invoked

/-- The state of one `"Connected"`-changed watcher dispatch: the live
`self._device_watchers` collection and the log of connected-changed
callbacks invoked so far. -/
structure WatcherDispatchState where
  watchers : List DeviceWatcher
  invoked : List Nat
deriving DecidableEq

/-- The `"Connected"` watcher dispatch of `_parse_msg` (lines 772–780):
iterate over `self._device_watchers.copy()` — the snapshot taken when the
loop starts — and invoke `on_connected_changed` for each watcher whose
device path equals the message path; each invocation may mutate the live
collection through `env`. -/
def runConnectedWatchers (env : Nat → List DeviceWatcher → List DeviceWatcher)
    (msg_path : String) (s : WatcherDispatchState) : WatcherDispatchState :=
  s.watchers.foldl
    (fun acc w =>
      if msg_path = w.device_path then
        { watchers := env w.on_connected_changed acc.watchers,
          invoked := acc.invoked ++ [w.on_connected_changed] }
      else acc)
    s

-- ----------------------------------------------------------------------
-- `BleakScannerBlueZDBus.__init__` (scanner.py).

/-- The `bluez` argument dictionary of the scanner (`BlueZScannerArgs`):
optional discovery filters and optional or-patterns. -/
structure BlueZScannerArgs where
  filters : Option (List (String × Value))
  or_patterns : Option (List OrPattern)
deriving DecidableEq

/-- A constructed `BleakScannerBlueZDBus` (the fields its `__init__` sets
that the given sources read). -/
structure BleakScannerBlueZDBus where
  scanning_mode : String
  adapter : String
  adapter_path : String
  filters : List (String × Variant)
  or_patterns : Option (List OrPattern)
deriving DecidableEq

/-- `set_scanning_filter` (scanner.py, lines 160–189): wrap each recognized
filter key in a variant of the matching signature; unrecognized keys are
logged and ignored. -/
def set_scanning_filter (filters : List (String × Variant))
    (entries : List (String × Value)) : List (String × Variant) :=
  entries.foldl
    (fun fs kv =>
      if kv.1 = "UUIDs" then alSet fs kv.1 ⟨"as", kv.2⟩
      else if kv.1 = "RSSI" then alSet fs kv.1 ⟨"n", kv.2⟩
      else if kv.1 = "Pathloss" then alSet fs kv.1 ⟨"n", kv.2⟩
      else if kv.1 = "Transport" then alSet fs kv.1 ⟨"s", kv.2⟩
      else if kv.1 = "DuplicateData" then alSet fs kv.1 ⟨"b", kv.2⟩
      else if kv.1 = "Discoverable" then alSet fs kv.1 ⟨"b", kv.2⟩
      else if kv.1 = "Pattern" then alSet fs kv.1 ⟨"s", kv.2⟩
      else fs)
    filters

/-- Python truthiness of an optional list (`None` and `[]` are falsy). -/
def truthyList {α : Type} : Option (List α) → Bool
  | some (_ :: _) => true
  | _ => false

/-- `BleakScannerBlueZDBus.__init__` (scanner.py, lines 76–131): resolve the
adapter (the `device` kwarg is the backwards-compatible fallback), build the
base discovery filters (`Transport="le"`, `DuplicateData=False`, plus
`UUIDs` when service UUIDs were given), apply the filters from the
deprecated `filters` kwarg or from `bluez` (the former wins, with a
deprecation warning), read `or_patterns` from `bluez`, and raise a
`BleakError` when the scanning mode is `"passive"` and no (or an empty)
or-pattern list was supplied. -/
def scannerInit (service_uuids : Option (List String)) (scanning_mode : String)
    (bluez : BlueZScannerArgs) (kwargs_adapter kwargs_device : Option String)
    (kwargs_filters : Option (List (String × Value))) :
    Except String BleakScannerBlueZDBus :=
  let adapter := kwargs_adapter.getD (kwargs_device.getD "hci0")
  let adapter_path := "/org/bluez/" ++ adapter
  let fs : List (String × Variant) :=
    [("Transport", ⟨"s", .vStr "le"⟩), ("DuplicateData", ⟨"b", .vBool false⟩)]
  let fs := if truthyList service_uuids then
      alSet fs "UUIDs" ⟨"as", .vStrList (service_uuids.getD [])⟩
    else fs
  let provided := match kwargs_filters with
    | some f => some f
    | none => bluez.filters
  let fs := match provided with
    | some f => set_scanning_filter fs f
    | none => fs
  let or_patterns := bluez.or_patterns
  if scanning_mode = "passive" && !truthyList or_patterns then
    .error "passive scanning mode requires bluez or_patterns"
  else
    .ok ⟨scanning_mode, adapter, adapter_path, fs, or_patterns⟩

-- ======================================================================
-- Lemmas and theorems.
-- ======================================================================

theorem alGet_alSet {β : Type} (l : List (String × β)) (k : String) (v : β)
    (k' : String) :
    alGet (alSet l k v) k' = if k' = k then some v else alGet l k' := by
  induction l with
  | nil =>
    simp only [alSet, alGet]
    by_cases h : k' = k
    · subst h; simp
    · rw [if_neg (fun e : k = k' => h e.symm), if_neg h]
  | cons kv rest ih =>
    simp only [alSet]
    by_cases hk : kv.1 = k
    · rw [if_pos hk]
      simp only [alGet]
      by_cases h : k' = k
      · subst h; simp
      · rw [if_neg (fun e : k = k' => h e.symm), if_neg h,
          if_neg (fun e : kv.1 = k' => h (hk.symm.trans e).symm)]
    · rw [if_neg hk]
      simp only [alGet]
      by_cases h2 : kv.1 = k'
      · have hk'k : ¬ k' = k := fun e => hk (h2.trans e)
        rw [if_pos h2, if_neg hk'k, if_pos h2]
      · rw [if_neg h2, ih]
        by_cases h : k' = k
        · simp [h]
        · rw [if_neg h, if_neg h, if_neg h2]

theorem alGet_alSet_self {β : Type} (l : List (String × β)) (k : String) (v : β) :
    alGet (alSet l k v) k = some v := by
  simp [alGet_alSet]

theorem alGet_alSet_ne {β : Type} (l : List (String × β)) (k : String) (v : β)
    (k' : String) (h : k' ≠ k) : alGet (alSet l k v) k' = alGet l k' := by
  simp [alGet_alSet, h]

theorem mem_setAdd {α : Type} [DecidableEq α] (l : List α) (x y : α) :
    y ∈ setAdd l x ↔ y ∈ l ∨ y = x := by
  unfold setAdd
  by_cases h : x ∈ l
  · simp only [if_pos h]
    constructor
    · exact Or.inl
    · rintro (hy | rfl)
      · exact hy
      · exact h
  · simp [if_neg h]

theorem not_inIndex_nil (parent child : String) : ¬ inIndex [] parent child := by
  simp [inIndex, alGet]

theorem inIndex_indexAdd (m : List (String × List String)) (d p d' p' : String) :
    inIndex (indexAdd m d p) d' p' ↔ inIndex m d' p' ∨ (d' = d ∧ p' = p) := by
  unfold inIndex indexAdd
  rw [alGet_alSet]
  by_cases h : d' = d
  · subst h
    simp [mem_setAdd]
  · simp [h]

theorem getIface_alSet_whole (P : List (String × IfaceDict)) (path : String)
    (ifaces : IfaceDict) (q j : String) :
    getIface (alSet P path ifaces) q j =
      if q = path then alGet ifaces j else getIface P q j := by
  unfold getIface
  rw [alGet_alSet]
  by_cases h : q = path <;> simp [h]

theorem getIface_nil (q j : String) :
    getIface ([] : List (String × IfaceDict)) q j = none := by
  simp [getIface, alGet]

/-- The per-interface property-table write of `InterfacesAdded`
(`self._properties.setdefault(obj_path, {})[interface] = props`) read back:
only the (path, interface) slot changes. -/
theorem getIface_setIface (P : List (String × IfaceDict)) (path iface : String)
    (props : PropDict) (q j : String) :
    getIface (alSet P path (alSet ((alGet P path).getD []) iface props)) q j =
      if q = path ∧ j = iface then some props else getIface P q j := by
  rw [getIface_alSet_whole]
  by_cases hq : q = path
  · subst hq
    rw [alGet_alSet]
    by_cases hj : j = iface
    · simp [hj]
    · rw [if_pos rfl, if_neg hj, if_neg (fun hc : q = q ∧ j = iface => hj hc.2)]
      unfold getIface
      cases h : alGet P q with
      | none => simp [alGet]
      | some d => simp
  · simp [hq]

theorem gattParent_some_some (ifaces : List (String × PropDict))
    (ifaceName parentKey d : String)
    (h : gattParent ifaces ifaceName parentKey = some (some d)) :
    ∃ props, alGet ifaces ifaceName = some props ∧
      pget props parentKey = some (.vStr d) := by
  cases ha : alGet ifaces ifaceName with
  | none =>
    simp only [gattParent, ha] at h
    injection h with h'
    cases h'
  | some props =>
    simp only [gattParent, ha] at h
    by_cases hnil : props = []
    · rw [if_pos hnil] at h; cases h
    · rw [if_neg hnil] at h
      cases hp : pget props parentKey with
      | none => simp only [hp] at h; cases h
      | some v =>
        simp only [hp] at h
        cases v with
        | vStr d' =>
          refine ⟨props, rfl, ?_⟩
          rw [hp]
          injection h with h'
          injection h' with h''
          rw [h'']
        | vBool b => cases h
        | vInt n => cases h
        | vBytes bs => cases h
        | vStrList l => cases h

theorem gattParent_some_none (ifaces : List (String × PropDict))
    (ifaceName parentKey : String)
    (h : gattParent ifaces ifaceName parentKey = some none) (d : String) :
    ¬ ∃ props, alGet ifaces ifaceName = some props ∧
      pget props parentKey = some (.vStr d) := by
  rintro ⟨props, hpr, hparent⟩
  simp only [gattParent, hpr] at h
  by_cases hnil : props = []
  · subst hnil
    cases hparent
  · rw [if_neg hnil, hparent] at h
    cases h

/-- Inserting a fresh path's full interface dictionary and indexing it under
the declared parent preserves exact index agreement. -/
theorem indexMatches_insert_parent (P : List (String × IfaceDict)) (path : String)
    (ifaces : IfaceDict) (ifaceName parentKey : String)
    (m : List (String × List String)) (d : String)
    (hfresh : alGet P path = none)
    (h : indexMatches P ifaceName parentKey m)
    (hdec : gattParent ifaces ifaceName parentKey = some (some d)) :
    indexMatches (alSet P path ifaces) ifaceName parentKey (indexAdd m d path) := by
  obtain ⟨props0, hget, hparent⟩ := gattParent_some_some ifaces ifaceName parentKey d hdec
  intro d' p'
  rw [inIndex_indexAdd, getIface_alSet_whole]
  by_cases hp : p' = path
  · subst hp
    rw [if_pos rfl]
    have hold : ¬ inIndex m d' p' := by
      intro hmem
      obtain ⟨pr, hpr, -⟩ := (h d' p').mp hmem
      unfold getIface at hpr
      rw [hfresh] at hpr
      cases hpr
    constructor
    · rintro (hmem | ⟨rfl, -⟩)
      · exact absurd hmem hold
      · exact ⟨props0, hget, hparent⟩
    · rintro ⟨pr, hpr, hpar⟩
      rw [hget] at hpr
      injection hpr with e
      subst e
      rw [hparent] at hpar
      injection hpar with e'
      injection e' with e''
      exact Or.inr ⟨e''.symm, rfl⟩
  · rw [if_neg hp]
    constructor
    · rintro (hmem | ⟨-, rfl⟩)
      · exact (h d' p').mp hmem
      · exact absurd rfl hp
    · intro hx
      exact Or.inl ((h d' p').mpr hx)

/-- Inserting a fresh path's full interface dictionary without an index
action (the interface is absent or its property dictionary empty) preserves
exact index agreement. -/
theorem indexMatches_insert_noparent (P : List (String × IfaceDict)) (path : String)
    (ifaces : IfaceDict) (ifaceName parentKey : String)
    (m : List (String × List String))
    (hfresh : alGet P path = none)
    (h : indexMatches P ifaceName parentKey m)
    (hdec : gattParent ifaces ifaceName parentKey = some none) :
    indexMatches (alSet P path ifaces) ifaceName parentKey m := by
  intro d' p'
  rw [getIface_alSet_whole]
  by_cases hp : p' = path
  · subst hp
    rw [if_pos rfl]
    have hold : ¬ inIndex m d' p' := by
      intro hmem
      obtain ⟨pr, hpr, -⟩ := (h d' p').mp hmem
      unfold getIface at hpr
      rw [hfresh] at hpr
      cases hpr
    constructor
    · intro hmem
      exact absurd hmem hold
    · intro hx
      exact absurd hx (gattParent_some_none ifaces ifaceName parentKey hdec d')
  · rw [if_neg hp]
    exact h d' p'

/-- Inserting one fresh `GetManagedObjects` entry preserves the full
hierarchy invariant (when the handler does not crash on it). -/
theorem bulkInsert_invariant (t : GattTables) (e : BulkEntry)
    (hfresh : alGet t.properties e.1 = none)
    (hinv : hierarchyInvariant t)
    (hok : (bulkInsert t e).2 = true) :
    hierarchyInvariant (bulkInsert t e).1 := by
  obtain ⟨h1, h2, h3⟩ := hinv
  cases hs : gattParent e.2 GATT_SERVICE_INTERFACE "Device" with
  | none =>
    simp only [bulkInsert, hs] at hok
    cases hok
  | some sDec =>
    cases hc : gattParent e.2 GATT_CHARACTERISTIC_INTERFACE "Service" with
    | none => cases sDec <;> simp only [bulkInsert, hs, hc] at hok <;> cases hok
    | some cDec =>
      cases hd : gattParent e.2 GATT_DESCRIPTOR_INTERFACE "Characteristic" with
      | none =>
        cases sDec <;> cases cDec <;> simp only [bulkInsert, hs, hc, hd] at hok <;>
          cases hok
      | some dDec =>
        cases sDec <;> cases cDec <;> cases dDec <;>
          simp only [bulkInsert, hs, hc, hd] <;>
          refine ⟨?_, ?_, ?_⟩ <;>
          first
            | exact indexMatches_insert_noparent t.properties e.1 e.2 _ _ _ hfresh h1 hs
            | exact indexMatches_insert_parent t.properties e.1 e.2 _ _ _ _ hfresh h1 hs
            | exact indexMatches_insert_noparent t.properties e.1 e.2 _ _ _ hfresh h2 hc
            | exact indexMatches_insert_parent t.properties e.1 e.2 _ _ _ _ hfresh h2 hc
            | exact indexMatches_insert_noparent t.properties e.1 e.2 _ _ _ hfresh h3 hd
            | exact indexMatches_insert_parent t.properties e.1 e.2 _ _ _ _ hfresh h3 hd

/-- Inserting one `GetManagedObjects` entry leaves the property table as the
straight dictionary write `self._properties[path] = props`. -/
theorem bulkInsert_properties (t : GattTables) (e : BulkEntry) :
    (bulkInsert t e).1.properties = alSet t.properties e.1 e.2 := by
  cases hs : gattParent e.2 GATT_SERVICE_INTERFACE "Device" with
  | none => simp only [bulkInsert, hs]
  | some sDec =>
    cases hc : gattParent e.2 GATT_CHARACTERISTIC_INTERFACE "Service" with
    | none => cases sDec <;> simp only [bulkInsert, hs, hc]
    | some cDec =>
      cases hd : gattParent e.2 GATT_DESCRIPTOR_INTERFACE "Characteristic" with
      | none => cases sDec <;> cases cDec <;> simp only [bulkInsert, hs, hc, hd]
      | some dDec =>
        cases sDec <;> cases cDec <;> cases dDec <;> simp only [bulkInsert, hs, hc, hd]

/-- The population loop of `async_init` establishes the full hierarchy
invariant: starting from an invariant-satisfying table in which none of the
reply's paths is present, with the reply's paths pairwise distinct (they are
the keys of a dictionary), a successful fold satisfies the invariant. -/
theorem bulkFold_invariant (reply : List BulkEntry) : ∀ (t : GattTables),
    hierarchyInvariant t →
    (∀ e ∈ reply, alGet t.properties e.1 = none) →
    (reply.map Prod.fst).Nodup →
    (bulkFold reply t).2 = true →
    hierarchyInvariant (bulkFold reply t).1 := by
  induction reply with
  | nil => intro t h _ _ _; exact h
  | cons e rest ih =>
    intro t hinv hfresh hnd hok
    have hfr : alGet t.properties e.1 = none := hfresh e (List.mem_cons_self e rest)
    cases hr : bulkInsert t e with
    | mk t' flag =>
      cases flag with
      | false =>
        rw [bulkFold, hr] at hok
        cases hok
      | true =>
        have hinv' : hierarchyInvariant t' := by
          have := bulkInsert_invariant t e hfr hinv (by rw [hr])
          rw [hr] at this
          exact this
        have hprops : t'.properties = alSet t.properties e.1 e.2 := by
          have := bulkInsert_properties t e
          rw [hr] at this
          exact this
        have hfresh' : ∀ e' ∈ rest, alGet t'.properties e'.1 = none := by
          intro e' he'
          have hne : e'.1 ≠ e.1 := by
            simp only [List.map_cons, List.nodup_cons] at hnd
            intro hcontra
            exact hnd.1 (hcontra ▸ List.mem_map_of_mem Prod.fst he')
          rw [hprops, alGet_alSet_ne _ _ _ _ hne]
          exact hfresh e' (List.mem_cons_of_mem e he')
        have hnd' : (rest.map Prod.fst).Nodup := by
          simp only [List.map_cons, List.nodup_cons] at hnd
          exact hnd.2
        rw [bulkFold, hr] at hok ⊢
        exact ih t' hinv' hfresh' hnd' hok

theorem hierarchyInvariant_emptyTables : hierarchyInvariant emptyTables := by
  refine ⟨?_, ?_, ?_⟩ <;>
    · intro d p
      constructor
      · intro hmem
        exact absurd hmem (not_inIndex_nil d p)
      · rintro ⟨pr, hpr, -⟩
        exact Option.noConfusion hpr

theorem indexComplete_emptyTables : indexComplete emptyTables := by
  refine ⟨?_, ?_, ?_⟩ <;>
    · intro p pr d hg _
      exact Option.noConfusion hg

/-- Writing a property dictionary for an interface other than the one an
index map tracks preserves its completeness. -/
theorem completeFor_setIface_other (P : List (String × IfaceDict)) (path iface : String)
    (props : PropDict) (ifaceName parentKey : String)
    (m : List (String × List String))
    (hne : iface ≠ ifaceName)
    (h : completeFor P ifaceName parentKey m) :
    completeFor (alSet P path (alSet ((alGet P path).getD []) iface props))
      ifaceName parentKey m := by
  intro p pr d hg hparent
  rw [getIface_setIface] at hg
  rw [if_neg (fun hc : p = path ∧ ifaceName = iface => hne hc.2.symm)] at hg
  exact h p pr d hg hparent

/-- Writing a property dictionary for the tracked interface and indexing the
path under its declared parent preserves completeness. -/
theorem completeFor_setIface_indexed (P : List (String × IfaceDict)) (path : String)
    (props : PropDict) (ifaceName parentKey : String)
    (m : List (String × List String)) (d : String)
    (hparent : pget props parentKey = some (.vStr d))
    (h : completeFor P ifaceName parentKey m) :
    completeFor (alSet P path (alSet ((alGet P path).getD []) ifaceName props))
      ifaceName parentKey (indexAdd m d path) := by
  intro p pr d' hg hp
  rw [getIface_setIface] at hg
  by_cases hq : p = path
  · rw [if_pos ⟨hq, rfl⟩] at hg
    injection hg with e
    subst e
    rw [hparent] at hp
    injection hp with e'
    injection e' with e''
    exact (inIndex_indexAdd m d path d' p).mpr (Or.inr ⟨e''.symm, hq⟩)
  · rw [if_neg (fun hc : p = path ∧ ifaceName = ifaceName => hq hc.1)] at hg
    exact (inIndex_indexAdd m d path d' p).mpr (Or.inl (h p pr d' hg hp))

/-- Writing a property dictionary for the tracked interface whose parent
reference is absent or not a string preserves completeness without any
index action (the handler crashes right after the write). -/
theorem completeFor_setIface_bad (P : List (String × IfaceDict)) (path : String)
    (props : PropDict) (ifaceName parentKey : String)
    (m : List (String × List String))
    (hparent : ∀ d, pget props parentKey ≠ some (.vStr d))
    (h : completeFor P ifaceName parentKey m) :
    completeFor (alSet P path (alSet ((alGet P path).getD []) ifaceName props))
      ifaceName parentKey m := by
  intro p pr d hg hp
  rw [getIface_setIface] at hg
  by_cases hq : p = path
  · rw [if_pos ⟨hq, rfl⟩] at hg
    injection hg with e
    subst e
    exact absurd hp (hparent d)
  · rw [if_neg (fun hc : p = path ∧ ifaceName = ifaceName => hq hc.1)] at hg
    exact h p pr d hg hp

/-- Processing one interface of an `InterfacesAdded` signal preserves the
"no missing entries" half of the invariant, whether or not the handler
crashes on the parent lookup. -/
theorem addIface_indexComplete (t : GattTables) (path iface : String)
    (props : PropDict) (h : indexComplete t) :
    indexComplete (addIface t path iface props).1 := by
  obtain ⟨h1, h2, h3⟩ := h
  by_cases hS : iface = GATT_SERVICE_INTERFACE
  · subst hS
    by_cases hvs : ∃ d, pget props "Device" = some (.vStr d)
    · obtain ⟨d, hp⟩ := hvs
      simp only [addIface, if_pos rfl, hp]
      exact ⟨completeFor_setIface_indexed _ _ _ _ _ _ _ hp h1,
             completeFor_setIface_other _ _ _ _ _ _ _ (by decide) h2,
             completeFor_setIface_other _ _ _ _ _ _ _ (by decide) h3⟩
    · have hbad : ∀ d, pget props "Device" ≠ some (.vStr d) := fun d hc => hvs ⟨d, hc⟩
      cases hp : pget props "Device" with
      | none =>
        simp only [addIface, if_pos rfl, hp]
        exact ⟨completeFor_setIface_bad _ _ _ _ _ _ hbad h1,
               completeFor_setIface_other _ _ _ _ _ _ _ (by decide) h2,
               completeFor_setIface_other _ _ _ _ _ _ _ (by decide) h3⟩
      | some v =>
        cases v
        case neg.some.vStr d => exact absurd ⟨d, hp⟩ hvs
        all_goals
          simp only [addIface, if_pos rfl, hp]
        all_goals
          exact ⟨completeFor_setIface_bad _ _ _ _ _ _ hbad h1,
                 completeFor_setIface_other _ _ _ _ _ _ _ (by decide) h2,
                 completeFor_setIface_other _ _ _ _ _ _ _ (by decide) h3⟩
  · by_cases hC : iface = GATT_CHARACTERISTIC_INTERFACE
    · subst hC
      by_cases hvs : ∃ s, pget props "Service" = some (.vStr s)
      · obtain ⟨s, hp⟩ := hvs
        simp only [addIface, if_neg hS, if_pos rfl, hp]
        exact ⟨completeFor_setIface_other _ _ _ _ _ _ _ (by decide) h1,
               completeFor_setIface_indexed _ _ _ _ _ _ _ hp h2,
               completeFor_setIface_other _ _ _ _ _ _ _ (by decide) h3⟩
      · have hbad : ∀ s, pget props "Service" ≠ some (.vStr s) := fun s hc => hvs ⟨s, hc⟩
        cases hp : pget props "Service" with
        | none =>
          simp only [addIface, if_neg hS, if_pos rfl, hp]
          exact ⟨completeFor_setIface_other _ _ _ _ _ _ _ (by decide) h1,
                 completeFor_setIface_bad _ _ _ _ _ _ hbad h2,
                 completeFor_setIface_other _ _ _ _ _ _ _ (by decide) h3⟩
        | some v =>
          cases v
          case neg.some.vStr s => exact absurd ⟨s, hp⟩ hvs
          all_goals
            simp only [addIface, if_neg hS, if_pos rfl, hp]
          all_goals
            exact ⟨completeFor_setIface_other _ _ _ _ _ _ _ (by decide) h1,
                   completeFor_setIface_bad _ _ _ _ _ _ hbad h2,
                   completeFor_setIface_other _ _ _ _ _ _ _ (by decide) h3⟩
    · by_cases hD : iface = GATT_DESCRIPTOR_INTERFACE
      · subst hD
        by_cases hvs : ∃ c, pget props "Characteristic" = some (.vStr c)
        · obtain ⟨c, hp⟩ := hvs
          simp only [addIface, if_neg hS, if_neg hC, if_pos rfl, hp]
          exact ⟨completeFor_setIface_other _ _ _ _ _ _ _ (by decide) h1,
                 completeFor_setIface_other _ _ _ _ _ _ _ (by decide) h2,
                 completeFor_setIface_indexed _ _ _ _ _ _ _ hp h3⟩
        · have hbad : ∀ c, pget props "Characteristic" ≠ some (.vStr c) :=
            fun c hc => hvs ⟨c, hc⟩
          cases hp : pget props "Characteristic" with
          | none =>
            simp only [addIface, if_neg hS, if_neg hC, if_pos rfl, hp]
            exact ⟨completeFor_setIface_other _ _ _ _ _ _ _ (by decide) h1,
                   completeFor_setIface_other _ _ _ _ _ _ _ (by decide) h2,
                   completeFor_setIface_bad _ _ _ _ _ _ hbad h3⟩
          | some v =>
            cases v
            case neg.some.vStr c => exact absurd ⟨c, hp⟩ hvs
            all_goals
              simp only [addIface, if_neg hS, if_neg hC, if_pos rfl, hp]
            all_goals
              exact ⟨completeFor_setIface_other _ _ _ _ _ _ _ (by decide) h1,
                     completeFor_setIface_other _ _ _ _ _ _ _ (by decide) h2,
                     completeFor_setIface_bad _ _ _ _ _ _ hbad h3⟩
      · simp only [addIface, if_neg hS, if_neg hC, if_neg hD]
        exact ⟨completeFor_setIface_other _ _ _ _ _ _ _ hS h1,
               completeFor_setIface_other _ _ _ _ _ _ _ hC h2,
               completeFor_setIface_other _ _ _ _ _ _ _ hD h3⟩

/-- The whole `InterfacesAdded` branch of `_parse_msg` preserves the
"no missing entries" half of the invariant. -/
theorem applyInterfacesAdded_indexComplete (ifaces : List (String × PropDict)) :
    ∀ (t : GattTables) (path : String), indexComplete t →
      indexComplete (applyInterfacesAdded t path ifaces) := by
  induction ifaces with
  | nil => intro t path h; exact h
  | cons ip rest ih =>
    intro t path h
    obtain ⟨iface, props⟩ := ip
    cases hr : addIface t path iface props with
    | mk t' flag =>
      have hstep := addIface_indexComplete t path iface props h
      rw [hr] at hstep
      cases flag with
      | false =>
        simp only [applyInterfacesAdded, hr]
        exact hstep
      | true =>
        simp only [applyInterfacesAdded, hr]
        exact ih t' path hstep

/-- C1 (counterexample): the claimed two-sided hierarchy-index invariant is
not preserved by every signal sequence.  Concretely: a bulk enumeration
reports a device and one GATT service owned by it (and succeeds); an
`InterfacesRemoved` signal then removes the service's GATT-service
interface.  The removal branch of `_parse_msg` only deletes the service's
own children entry in `self._characteristic_map` and never removes the
service path from `self._service_map` of its device, so the device's index
entry still lists the service while the service's property-table entry no
longer carries the GATT-service interface — an orphan index entry, and the
invariant fails after that signal. -/
theorem c1_hierarchy_index_counterexample :
    (bulkFold
      [("/org/bluez/hci0/dev_AA",
         [(DEVICE_INTERFACE, [("Connected", Value.vBool false)])]),
       ("/org/bluez/hci0/dev_AA/service0001",
         [(GATT_SERVICE_INTERFACE, [("Device", Value.vStr "/org/bluez/hci0/dev_AA")])])]
      emptyTables).2 = true ∧
    ¬ hierarchyInvariant
        (applyInterfacesRemoved
          (bulkFold
            [("/org/bluez/hci0/dev_AA",
               [(DEVICE_INTERFACE, [("Connected", Value.vBool false)])]),
             ("/org/bluez/hci0/dev_AA/service0001",
               [(GATT_SERVICE_INTERFACE,
                 [("Device", Value.vStr "/org/bluez/hci0/dev_AA")])])]
            emptyTables).1
          "/org/bluez/hci0/dev_AA/service0001" [GATT_SERVICE_INTERFACE]) := by
  constructor
  · decide
  · intro h
    obtain ⟨hs, -, -⟩ := h
    have hmem : inIndex
        (applyInterfacesRemoved
          (bulkFold
            [("/org/bluez/hci0/dev_AA",
               [(DEVICE_INTERFACE, [("Connected", Value.vBool false)])]),
             ("/org/bluez/hci0/dev_AA/service0001",
               [(GATT_SERVICE_INTERFACE,
                 [("Device", Value.vStr "/org/bluez/hci0/dev_AA")])])]
            emptyTables).1
          "/org/bluez/hci0/dev_AA/service0001" [GATT_SERVICE_INTERFACE]).service_map
        "/org/bluez/hci0/dev_AA" "/org/bluez/hci0/dev_AA/service0001" := by decide
    obtain ⟨props, hp, -⟩ :=
      (hs "/org/bluez/hci0/dev_AA" "/org/bluez/hci0/dev_AA/service0001").mp hmem
    have hnone : getIface
        (applyInterfacesRemoved
          (bulkFold
            [("/org/bluez/hci0/dev_AA",
               [(DEVICE_INTERFACE, [("Connected", Value.vBool false)])]),
             ("/org/bluez/hci0/dev_AA/service0001",
               [(GATT_SERVICE_INTERFACE,
                 [("Device", Value.vStr "/org/bluez/hci0/dev_AA")])])]
            emptyTables).1
          "/org/bluez/hci0/dev_AA/service0001" [GATT_SERVICE_INTERFACE]).properties
        "/org/bluez/hci0/dev_AA/service0001" GATT_SERVICE_INTERFACE = none := by decide
    rw [hnone] at hp
    cases hp

/-- C1 (amended): after the bulk enumeration the three hierarchy index maps
are exactly the set of paths whose Property Table entry carries the
corresponding GATT interface with its (string) parent-reference property —
no orphans, no missing entries — and every subsequent object-added signal
preserves the "no missing entries" half of the invariant.  (Object-removed
signals can break both halves: see the counterexample.) -/
theorem c1_hierarchy_index_amended :
    (∀ reply : List BulkEntry, (reply.map Prod.fst).Nodup →
      (bulkFold reply emptyTables).2 = true →
      hierarchyInvariant (bulkFold reply emptyTables).1) ∧
    (∀ (t : GattTables) (obj_path : String) (ifaces : List (String × PropDict)),
      indexComplete t → indexComplete (applyInterfacesAdded t obj_path ifaces)) := by
  constructor
  · intro reply hnd hok
    exact bulkFold_invariant reply emptyTables hierarchyInvariant_emptyTables
      (fun e _ => rfl) hnd hok
  · intro t obj_path ifaces h
    exact applyInterfacesAdded_indexComplete ifaces t obj_path h

/-- C1 (witness): the amended theorem applied to a one-device bulk reply and
to an object-added signal carrying a GATT service. -/
theorem c1_hierarchy_index_witness :
    hierarchyInvariant
      (bulkFold
        [("/org/bluez/hci0/dev_AA",
           [(DEVICE_INTERFACE, [("Connected", Value.vBool false)])])]
        emptyTables).1 ∧
    indexComplete
      (applyInterfacesAdded emptyTables "/org/bluez/hci0/dev_AA/service0001"
        [(GATT_SERVICE_INTERFACE, [("Device", Value.vStr "/org/bluez/hci0/dev_AA")])]) :=
  ⟨c1_hierarchy_index_amended.1 _ (by decide) (by decide),
   c1_hierarchy_index_amended.2 _ _ _ indexComplete_emptyTables⟩

/-- The invoked log of the `"Connected"` watcher dispatch only grows. -/
theorem connectedFold_invoked_mono
    (env : Nat → List DeviceWatcher → List DeviceWatcher) (msg_path : String)
    (l : List DeviceWatcher) :
    ∀ (acc : WatcherDispatchState) (x : Nat), x ∈ acc.invoked →
      x ∈ (List.foldl
        (fun acc w =>
          if msg_path = w.device_path then
            { watchers := env w.on_connected_changed acc.watchers,
              invoked := acc.invoked ++ [w.on_connected_changed] }
          else acc)
        acc l).invoked := by
  induction l with
  | nil => intro acc x hx; exact hx
  | cons u rest ih =>
    intro acc x hx
    rw [List.foldl_cons]
    apply ih
    by_cases h : msg_path = u.device_path
    · rw [if_pos h]
      exact List.mem_append_left _ hx
    · rw [if_neg h]
      exact hx

/-- Every watcher in the iterated snapshot whose device path matches has its
callback logged by the `"Connected"` watcher dispatch. -/
theorem connectedFold_invokes
    (env : Nat → List DeviceWatcher → List DeviceWatcher) (msg_path : String)
    (l : List DeviceWatcher) :
    ∀ (acc : WatcherDispatchState) (w : DeviceWatcher), w ∈ l →
      msg_path = w.device_path →
      w.on_connected_changed ∈ (List.foldl
        (fun acc w =>
          if msg_path = w.device_path then
            { watchers := env w.on_connected_changed acc.watchers,
              invoked := acc.invoked ++ [w.on_connected_changed] }
          else acc)
        acc l).invoked := by
  induction l with
  | nil => intro acc w hw; cases hw
  | cons u rest ih =>
    intro acc w hw hm
    rw [List.foldl_cons]
    rcases List.mem_cons.mp hw with rfl | hw'
    · apply connectedFold_invoked_mono
      rw [if_pos hm]
      exact List.mem_append_right _ (List.mem_singleton.mpr rfl)
    · exact ih _ w hw' hm

/-- C2 (counterexample): the advertisement-callback dispatch
(`_run_advertisement_callbacks`) does not iterate over a snapshot.  With two
registered, adapter-matching callbacks, callback 0's invocation removes its
own registration from the live list (as a stop does); the cursor then falls
off the shortened list and callback 1 — registered at the start of the
dispatch and matching — is never invoked. -/
theorem c2_snapshot_counterexample :
    ¬ advDispatchInvokesAll
        (fun i l => if i = 0 then l.erase ⟨0, "/org/bluez/hci0"⟩ else l)
        "/org/bluez/hci0/dev_AA"
        [⟨0, "/org/bluez/hci0"⟩, ⟨1, "/org/bluez/hci0"⟩] 10 := by
  unfold advDispatchInvokesAll
  decide

/-- C2 (amended): only the `"Connected"`-change device-watcher dispatch
iterates over a snapshot (`self._device_watchers.copy()`): every watcher
registered at the start of that dispatch whose device path equals the
message path is invoked, whatever the callbacks do to the live watcher
collection meanwhile.  (The advertisement, device-removed and `"Value"`
dispatches iterate the live collection: see the counterexample.) -/
theorem c2_snapshot_amended
    (env : Nat → List DeviceWatcher → List DeviceWatcher) (msg_path : String)
    (s : WatcherDispatchState) :
    ∀ w ∈ s.watchers, msg_path = w.device_path →
      w.on_connected_changed ∈ (runConnectedWatchers env msg_path s).invoked := by
  intro w hw hm
  exact connectedFold_invokes env msg_path s.watchers s w hw hm

/-- C3 (counterexample): in the successful `async_init` sequence the four
tables are not cleared immediately before the `GetManagedObjects` call is
issued — the clear comes after the call (once the reply is in, right before
repopulating). -/
theorem c3_clear_timing_counterexample :
    InitStep.clearTables ∈ asyncInitSuccessTrace ∧
    InitStep.callGetManagedObjects ∈ asyncInitSuccessTrace ∧
    asyncInitSuccessTrace.indexOf InitStep.clearTables + 1 ≠
      asyncInitSuccessTrace.indexOf InitStep.callGetManagedObjects := by
  decide

/-- C3 (amended): during `async_init` the Property Table and the three
hierarchy index maps are fully cleared immediately after the bulk
`GetManagedObjects` reply arrives and immediately before they are
repopulated from it, so no stale entries survive a reconnect: the tables a
successful initialization produces depend only on the reply, not on any
pre-existing table contents. -/
theorem c3_clear_timing_amended :
    (asyncInitSuccessTrace.indexOf InitStep.callGetManagedObjects + 1 =
      asyncInitSuccessTrace.indexOf InitStep.clearTables) ∧
    (asyncInitSuccessTrace.indexOf InitStep.clearTables + 1 =
      asyncInitSuccessTrace.indexOf InitStep.populateTables) ∧
    (∀ (st₁ st₂ : ManagerState) (b₁ b₂ : Bus) (reply : List BulkEntry),
      busIsConnected st₁ = false → busIsConnected st₂ = false →
      (async_init st₁ b₁ true reply).tables = (async_init st₂ b₂ true reply).tables) := by
  refine ⟨by decide, by decide, ?_⟩
  intro st₁ st₂ b₁ b₂ reply h1 h2
  cases hbf : bulkFold reply emptyTables with
  | mk t flag =>
    cases flag <;> simp [async_init, h1, h2, hbf]

/-- C3 (witness): the amended theorem applied to two managers with
different stale table contents and the same empty reply. -/
theorem c3_clear_timing_witness :
    (async_init
      ⟨none, ⟨[("/stale", [])], [], [], []⟩, [], [], [], [], []⟩
      ⟨1, true⟩ true []).tables =
    (async_init
      ⟨some ⟨0, false⟩, emptyTables, [], [], [], [], []⟩
      ⟨2, true⟩ true []).tables :=
  c3_clear_timing_amended.2.2 _ _ _ _ _ rfl rfl

/-- C6: calling `async_init` on a manager whose bus is already connected
performs no action: the whole state — Property Table, the three hierarchy
index maps, the services cache, every registration collection and the bus
itself — is unchanged, and no new bus is saved. -/
theorem c6_already_connected_noop (st : ManagerState) (b : Bus) (setupOk : Bool)
    (reply : List BulkEntry) (h : busIsConnected st = true) :
    async_init st b setupOk reply = st := by
  unfold async_init
  rw [if_pos h]

/-- C6 (witness): the theorem applied to a connected manager with a
non-trivial state. -/
theorem c6_already_connected_noop_witness :
    busIsConnected
      ⟨some ⟨5, true⟩, ⟨[("/org/bluez/hci0", [])], [], [], []⟩,
       [⟨1, "/org/bluez/hci0"⟩], [], [], [], []⟩ = true ∧
    async_init
      ⟨some ⟨5, true⟩, ⟨[("/org/bluez/hci0", [])], [], [], []⟩,
       [⟨1, "/org/bluez/hci0"⟩], [], [], [], []⟩ ⟨6, true⟩ true [] =
      ⟨some ⟨5, true⟩, ⟨[("/org/bluez/hci0", [])], [], [], []⟩,
       [⟨1, "/org/bluez/hci0"⟩], [], [], [], []⟩ :=
  ⟨rfl, c6_already_connected_noop _ _ _ _ rfl⟩

theorem erase_append_singleton_perm {α : Type} [DecidableEq α] (l : List α) (x : α) :
    ((l ++ [x]).erase x).Perm l := by
  by_cases h : x ∈ l
  · rw [List.erase_append_left _ h]
    exact (List.perm_append_singleton x (l.erase x)).trans (List.perm_cons_erase h).symm
  · rw [List.erase_append_right _ h, List.erase_cons_head, List.append_nil]

theorem erase_append_singleton_eq {α : Type} [DecidableEq α] (l : List α) (x : α)
    (h : x ∉ l) : (l ++ [x]).erase x = l := by
  rw [List.erase_append_right _ h, List.erase_cons_head, List.append_nil]

/-- C4: when a scan start fails in a remote call after the two callback
registrations were appended — `SetDiscoveryFilter` failing, `StartDiscovery`
failing after `SetDiscoveryFilter` succeeded, or `RegisterMonitor` failing —
both registration lists are restored to exactly their prior contents before
the error propagates (and are identical to them whenever the appended
registrations were fresh, as the closures created per start are). -/
theorem c4_rollback_on_failure (st : ManagerState) (adapter_path : String)
    (filters : List (String × Variant)) (or_patterns : List OrPattern)
    (advCb remCb pid monitorId : Nat) (en em : String)
    (startDiscoveryReply : Option (String × String))
    (h : (alGet st.tables.properties adapter_path).isNone = false) :
    registrationsRestored st
      (active_scan st adapter_path filters advCb remCb (some (en, em))
        startDiscoveryReply).state ⟨advCb, adapter_path⟩ ⟨remCb, adapter_path⟩ ∧
    registrationsRestored st
      (active_scan st adapter_path filters advCb remCb none (some (en, em))).state
      ⟨advCb, adapter_path⟩ ⟨remCb, adapter_path⟩ ∧
    registrationsRestored st
      (passive_scan st adapter_path or_patterns advCb remCb pid monitorId
        (some (en, em))).state ⟨advCb, adapter_path⟩ ⟨remCb, adapter_path⟩ := by
  have key : ∀ st' : ManagerState,
      st'.advertisement_callbacks =
        (st.advertisement_callbacks ++
          [(⟨advCb, adapter_path⟩ : CallbackAndState)]).erase
          ⟨advCb, adapter_path⟩ →
      st'.device_removed_callbacks =
        (st.device_removed_callbacks ++
          [(⟨remCb, adapter_path⟩ : DeviceRemovedCallbackAndState)]).erase
          ⟨remCb, adapter_path⟩ →
      registrationsRestored st st' ⟨advCb, adapter_path⟩ ⟨remCb, adapter_path⟩ := by
    intro st' ha hr
    refine ⟨?_, ?_, ?_, ?_⟩
    · rw [ha]; exact erase_append_singleton_perm _ _
    · rw [hr]; exact erase_append_singleton_perm _ _
    · intro hnm; rw [ha]; exact erase_append_singleton_eq _ _ hnm
    · intro hnm; rw [hr]; exact erase_append_singleton_eq _ _ hnm
  refine ⟨?_, ?_, ?_⟩
  · apply key <;> simp [active_scan, h]
  · apply key <;> simp [active_scan, h]
  · by_cases he : en = "org.freedesktop.DBus.Error.UnknownMethod" <;>
      · apply key <;> simp [passive_scan, h, he]

/-- C4 (witness): the theorem applied to a manager that knows the adapter,
with each of the three remote calls failing. -/
theorem c4_rollback_on_failure_witness :
    registrationsRestored
      ⟨none, ⟨[("/org/bluez/hci0", [])], [], [], []⟩, [], [], [], [], []⟩
      (active_scan ⟨none, ⟨[("/org/bluez/hci0", [])], [], [], []⟩, [], [], [], [], []⟩
        "/org/bluez/hci0" [] 1 2 (some ("org.bluez.Error.Failed", "oops"))
        none).state ⟨1, "/org/bluez/hci0"⟩ ⟨2, "/org/bluez/hci0"⟩ ∧
    registrationsRestored
      ⟨none, ⟨[("/org/bluez/hci0", [])], [], [], []⟩, [], [], [], [], []⟩
      (active_scan ⟨none, ⟨[("/org/bluez/hci0", [])], [], [], []⟩, [], [], [], [], []⟩
        "/org/bluez/hci0" [] 1 2 none
        (some ("org.bluez.Error.Failed", "oops"))).state
      ⟨1, "/org/bluez/hci0"⟩ ⟨2, "/org/bluez/hci0"⟩ ∧
    registrationsRestored
      ⟨none, ⟨[("/org/bluez/hci0", [])], [], [], []⟩, [], [], [], [], []⟩
      (passive_scan ⟨none, ⟨[("/org/bluez/hci0", [])], [], [], []⟩, [], [], [], [], []⟩
        "/org/bluez/hci0" [] 1 2 3 4
        (some ("org.bluez.Error.Failed", "oops"))).state
      ⟨1, "/org/bluez/hci0"⟩ ⟨2, "/org/bluez/hci0"⟩ :=
  c4_rollback_on_failure
    ⟨none, ⟨[("/org/bluez/hci0", [])], [], [], []⟩, [], [], [], [], []⟩
    "/org/bluez/hci0" [] [] 1 2 3 4 "org.bluez.Error.Failed" "oops" none (by decide)

/-- C7: `active_scan` and `passive_scan` raise the descriptive
"adapter … not found" error exactly when the adapter path has no entry in
the Property Table, and in that case they raise before registering any
callback and before issuing any remote call, with the manager state
unchanged. -/
theorem c7_adapter_not_found (st : ManagerState) (adapter_path : String)
    (filters : List (String × Variant)) (or_patterns : List OrPattern)
    (advCb remCb pid monitorId : Nat)
    (setFilterReply startDiscoveryReply registerMonitorReply :
      Option (String × String)) :
    ((∃ m, (active_scan st adapter_path filters advCb remCb setFilterReply
        startDiscoveryReply).result = .error (.adapterNotFound m)) ↔
      alGet st.tables.properties adapter_path = none) ∧
    ((∃ m, (passive_scan st adapter_path or_patterns advCb remCb pid monitorId
        registerMonitorReply).result = .error (.adapterNotFound m)) ↔
      alGet st.tables.properties adapter_path = none) ∧
    (alGet st.tables.properties adapter_path = none →
      active_scan st adapter_path filters advCb remCb setFilterReply
          startDiscoveryReply =
        ⟨.error (.adapterNotFound (adapterNotFoundMessage adapter_path)), st, []⟩ ∧
      passive_scan st adapter_path or_patterns advCb remCb pid monitorId
          registerMonitorReply =
        ⟨.error (.adapterNotFound (adapterNotFoundMessage adapter_path)), st, []⟩) := by
  by_cases hn : alGet st.tables.properties adapter_path = none
  · have hb : (alGet st.tables.properties adapter_path).isNone = true := by
      rw [hn]; rfl
    refine ⟨?_, ?_, ?_⟩
    · simp [active_scan, hb, hn]
    · simp [passive_scan, hb, hn]
    · intro _
      exact ⟨by simp [active_scan, hb], by simp [passive_scan, hb]⟩
  · have hb : (alGet st.tables.properties adapter_path).isNone = false := by
      cases ho : alGet st.tables.properties adapter_path with
      | none => exact absurd ho hn
      | some d => rfl
    refine ⟨?_, ?_, fun hc => absurd hc hn⟩
    · cases setFilterReply with
      | some p =>
        obtain ⟨en, em⟩ := p
        simp [active_scan, hb, hn]
      | none =>
        cases startDiscoveryReply with
        | some p =>
          obtain ⟨en, em⟩ := p
          simp [active_scan, hb, hn]
        | none => simp [active_scan, hb, hn]
    · cases registerMonitorReply with
      | some p =>
        obtain ⟨en, em⟩ := p
        by_cases he : en = "org.freedesktop.DBus.Error.UnknownMethod" <;>
          simp [passive_scan, hb, hn, he]
      | none => simp [passive_scan, hb, hn]

/-- C7 (witness): on a manager with an empty Property Table both scan
starts fail with the not-found error, state untouched, no remote call
issued. -/
theorem c7_adapter_not_found_witness :
    active_scan ⟨none, emptyTables, [], [], [], [], []⟩ "/org/bluez/hci0" [] 1 2
        none none =
      ⟨.error (.adapterNotFound (adapterNotFoundMessage "/org/bluez/hci0")),
       ⟨none, emptyTables, [], [], [], [], []⟩, []⟩ ∧
    passive_scan ⟨none, emptyTables, [], [], [], [], []⟩ "/org/bluez/hci0" [] 1 2 3 4
        none =
      ⟨.error (.adapterNotFound (adapterNotFoundMessage "/org/bluez/hci0")),
       ⟨none, emptyTables, [], [], [], [], []⟩, []⟩ :=
  (c7_adapter_not_found ⟨none, emptyTables, [], [], [], [], []⟩ "/org/bluez/hci0"
    [] [] 1 2 3 4 none none none).2.2 rfl

theorem setAdd_erase_fresh {α : Type} [DecidableEq α] (l : List α) (x : α)
    (h : x ∉ l) : (setAdd l x).erase x = l := by
  unfold setAdd
  rw [if_neg h]
  exact erase_append_singleton_eq l x h

/-- C8: `_wait_condition` returns immediately (no registration, state
untouched) when the device's property already equals the target; otherwise
it registers a fresh re-check closure, and on every exit path — wake-up and
cancellation alike — the closure is removed again, leaving the
condition-callback set exactly as before with the closure not registered. -/
theorem c8_wait_condition_cleanup (st : ManagerState)
    (device_path property_name : String) (property_value : Value) (cb : Nat) :
    (waitConditionCheck st.tables device_path property_name property_value =
        .immediate →
      ∀ exitKind, waitConditionRun st device_path property_name property_value cb
        exitKind = ⟨.immediate, st⟩) ∧
    (waitConditionCheck st.tables device_path property_name property_value =
        .suspended →
      cb ∉ st.condition_callbacks →
      ∀ exitKind,
        (waitConditionRun st device_path property_name property_value cb
            exitKind).state.condition_callbacks = st.condition_callbacks ∧
        cb ∉ (waitConditionRun st device_path property_name property_value cb
            exitKind).state.condition_callbacks) := by
  constructor
  · intro hc exitKind
    simp [waitConditionRun, hc]
  · intro hc hmem exitKind
    have hkey : (setAdd st.condition_callbacks cb).erase cb =
        st.condition_callbacks := setAdd_erase_fresh _ _ hmem
    cases exitKind <;>
      · simp only [waitConditionRun, hc]
        rw [hkey]
        exact ⟨rfl, hmem⟩

/-- C8 (witness): the suspended case on a concrete device whose
`"Connected"` property is `false` while the waiter targets `true`, exiting
by cancellation. -/
theorem c8_wait_condition_cleanup_witness :
    (waitConditionRun
      ⟨none,
       ⟨[("/dev", [(DEVICE_INTERFACE, [("Connected", Value.vBool false)])])],
        [], [], []⟩, [], [], [], [], []⟩
      "/dev" "Connected" (Value.vBool true) 9 .cancel).state.condition_callbacks =
      [] ∧
    9 ∉ (waitConditionRun
      ⟨none,
       ⟨[("/dev", [(DEVICE_INTERFACE, [("Connected", Value.vBool false)])])],
        [], [], []⟩, [], [], [], [], []⟩
      "/dev" "Connected" (Value.vBool true) 9 .cancel).state.condition_callbacks :=
  (c8_wait_condition_cleanup
    ⟨none,
     ⟨[("/dev", [(DEVICE_INTERFACE, [("Connected", Value.vBool false)])])],
      [], [], []⟩, [], [], [], [], []⟩
    "/dev" "Connected" (Value.vBool true) 9).2 (by decide) (by decide) .cancel

/-- Dissects a successful snapshot build by `get_services`: it implies the
cache path was not taken, the `"ServicesResolved"` test compared equal, the
snapshot is the table walk's result, and the new state caches it. -/
theorem get_services_built_eq (st : ManagerState) (device_path : String)
    (use_cached : Bool) (sc : BleakGATTServiceCollection) (st' : ManagerState)
    (h : get_services st device_path use_cached = ⟨.built, some sc, st'⟩) :
    buildServiceCollection st.tables device_path = some sc ∧
    waitConditionCheck st.tables device_path "ServicesResolved" (.vBool true) =
      .immediate ∧
    st' = { st with services_cache := alSet st.services_cache device_path sc } := by
  unfold get_services at h
  cases hcache : (if use_cached then alGet st.services_cache device_path else none) with
  | some s =>
    rw [hcache] at h
    cases h
  | none =>
    rw [hcache] at h
    cases hw : waitConditionCheck st.tables device_path "ServicesResolved"
        (.vBool true) with
    | keyError => rw [hw] at h; cases h
    | suspended => rw [hw] at h; cases h
    | immediate =>
      rw [hw] at h
      cases hb : buildServiceCollection st.tables device_path with
      | none => rw [hb] at h; cases h
      | some services =>
        rw [hb] at h
        injection h with h1 h2 h3
        injection h2 with h2
        subst h2
        exact ⟨rfl, rfl, h3.symm⟩

/-- C5: `get_services` with `use_cached=True` and a cached snapshot returns
that snapshot immediately with no waiting and no state change; without a
usable cache entry it suspends whenever `"ServicesResolved"` is present and
not yet `true`; it builds a snapshot only in a state where
`"ServicesResolved"` compares equal to `true`, caches it, and a subsequent
`use_cached=True` call returns the identical object without waiting. -/
theorem c5_get_services_cache_and_wait (st : ManagerState) (device_path : String)
    (use_cached : Bool) :
    (∀ sc, use_cached = true → alGet st.services_cache device_path = some sc →
      get_services st device_path use_cached = ⟨.cachedResult, some sc, st⟩) ∧
    ((use_cached = true → alGet st.services_cache device_path = none) →
      waitConditionCheck st.tables device_path "ServicesResolved" (.vBool true) =
        .suspended →
      get_services st device_path use_cached = ⟨.suspended, none, st⟩) ∧
    (∀ sc st', get_services st device_path use_cached = ⟨.built, some sc, st'⟩ →
      waitConditionCheck st.tables device_path "ServicesResolved" (.vBool true) =
        .immediate ∧
      get_services st' device_path true = ⟨.cachedResult, some sc, st'⟩) := by
  refine ⟨?_, ?_, ?_⟩
  · intro sc hu hc
    subst hu
    simp [get_services, hc]
  · intro hnc hw
    have hcache : (if use_cached then alGet st.services_cache device_path else none)
        = none := by
      cases use_cached with
      | false => rfl
      | true => exact hnc rfl
    unfold get_services
    rw [hcache, hw]
  · intro sc st' h
    obtain ⟨hb, hw, hst⟩ := get_services_built_eq st device_path use_cached sc st' h
    refine ⟨hw, ?_⟩
    have hc : alGet st'.services_cache device_path = some sc := by
      rw [hst]
      exact alGet_alSet_self _ _ _
    simp [get_services, hc]

/-- C5 (witness): a device with `"ServicesResolved" = true` and no GATT
children: the first non-cached call builds and caches the empty snapshot,
and the follow-up cached call returns it unchanged. -/
theorem c5_get_services_cache_and_wait_witness :
    waitConditionCheck
      (⟨[("/dev", [(DEVICE_INTERFACE, [("ServicesResolved", Value.vBool true)])])],
        [], [], []⟩ : GattTables)
      "/dev" "ServicesResolved" (.vBool true) = .immediate ∧
    get_services
      ⟨none,
       ⟨[("/dev", [(DEVICE_INTERFACE, [("ServicesResolved", Value.vBool true)])])],
        [], [], []⟩, [], [], [], [],
       [("/dev", ⟨[], [], []⟩)]⟩
      "/dev" true =
      ⟨.cachedResult, some ⟨[], [], []⟩,
       ⟨none,
        ⟨[("/dev", [(DEVICE_INTERFACE, [("ServicesResolved", Value.vBool true)])])],
         [], [], []⟩, [], [], [], [],
        [("/dev", ⟨[], [], []⟩)]⟩⟩ :=
  (c5_get_services_cache_and_wait
    ⟨none,
     ⟨[("/dev", [(DEVICE_INTERFACE, [("ServicesResolved", Value.vBool true)])])],
      [], [], []⟩, [], [], [], [], []⟩
    "/dev" false).2.2 ⟨[], [], []⟩
    ⟨none,
     ⟨[("/dev", [(DEVICE_INTERFACE, [("ServicesResolved", Value.vBool true)])])],
      [], [], []⟩, [], [], [], [],
     [("/dev", ⟨[], [], []⟩)]⟩
    (by decide)

theorem optionBindSome {α β : Type} (a : α) (f : α → Option β) :
    (some a >>= f) = f a := rfl

/-- An invariant preserved by every step of an `Option`-valued `foldlM`
holds for its result. -/
theorem foldlM_option_invariant {α β : Type} (P : β → Prop) (f : β → α → Option β) :
    ∀ (l : List α) (b c : β), P b →
      (∀ x b' c', P b' → f b' x = some c' → P c') →
      l.foldlM f b = some c → P c := by
  intro l
  induction l with
  | nil =>
    intro b c hb _ h
    simp only [List.foldlM] at h
    injection h with h
    rw [← h]
    exact hb
  | cons x rest ih =>
    intro b c hb hstep h
    simp only [List.foldlM] at h
    cases hf : f b x with
    | none => rw [hf] at h; cases h
    | some b' =>
      rw [hf] at h
      exact ih b' c (hstep x b b' hb hf) hstep h

/-- Every characteristic handle placed in a collection by the snapshot walk
carries the payload size computed by `charPayloadSize` from its own raw
property dictionary. -/
theorem buildServiceCollection_payload (t : GattTables) (device_path : String)
    (sc : BleakGATTServiceCollection)
    (h : buildServiceCollection t device_path = some sc) :
    ∀ c ∈ sc.characteristics,
      charPayloadSize c.obj = some c.max_write_without_response_size := by
  unfold buildServiceCollection at h
  refine foldlM_option_invariant
    (fun sc => ∀ c ∈ sc.characteristics,
      charPayloadSize c.obj = some c.max_write_without_response_size)
    _ _ _ sc (by intro c hc; cases hc) ?_ h
  intro service_path sc₀ sc₁ hP hstep
  cases hsp : getIface t.properties service_path GATT_SERVICE_INTERFACE with
  | none => rw [hsp] at hstep; cases hstep
  | some service_props =>
    rw [hsp] at hstep
    simp only [optionBindSome] at hstep
    refine foldlM_option_invariant
      (fun sc => ∀ c ∈ sc.characteristics,
        charPayloadSize c.obj = some c.max_write_without_response_size)
      _ _ _ sc₁ ?_ ?_ hstep
    · intro c hc
      exact hP c hc
    · intro char_path sc₂ sc₃ hP₂ hstep₂
      cases hcp : getIface t.properties char_path GATT_CHARACTERISTIC_INTERFACE with
      | none => rw [hcp] at hstep₂; cases hstep₂
      | some char_props =>
        rw [hcp] at hstep₂
        simp only [optionBindSome] at hstep₂
        cases hpay : charPayloadSize char_props with
        | none => rw [hpay] at hstep₂; cases hstep₂
        | some payload =>
          rw [hpay] at hstep₂
          simp only [optionBindSome] at hstep₂
          refine foldlM_option_invariant
            (fun sc => ∀ c ∈ sc.characteristics,
              charPayloadSize c.obj = some c.max_write_without_response_size)
            _ _ _ sc₃ ?_ ?_ hstep₂
          · intro c hc
            simp only [BleakGATTServiceCollection.add_characteristic] at hc
            rcases List.mem_append.mp hc with hc' | hc'
            · exact hP₂ c hc'
            · rw [List.mem_singleton.mp hc']
              exact hpay
          · intro desc_path sc₄ sc₅ hP₄ hstep₄
            cases hdp : getIface t.properties desc_path GATT_DESCRIPTOR_INTERFACE with
            | none => rw [hdp] at hstep₄; cases hstep₄
            | some desc_props =>
              rw [hdp] at hstep₄
              simp only [optionBindSome] at hstep₄
              injection hstep₄ with h₄
              rw [← h₄]
              intro c hc
              exact hP₄ c hc

/-- C9: every characteristic handle built by `get_services` has usable
payload size equal to its `MTU` property value minus 3, defaulting to the
BLE-spec minimum of 23 when the property is absent, so the default payload
size is 20. -/
theorem c9_mtu_payload (st : ManagerState) (device_path : String)
    (use_cached : Bool) (sc : BleakGATTServiceCollection) (st' : ManagerState)
    (h : get_services st device_path use_cached = ⟨.built, some sc, st'⟩) :
    ∀ c ∈ sc.characteristics,
      (pget c.obj "MTU" = none ∧ c.max_write_without_response_size = 20) ∨
      (∃ m : Int, pget c.obj "MTU" = some (.vInt m) ∧
        c.max_write_without_response_size = m - 3) := by
  obtain ⟨hb, -, -⟩ := get_services_built_eq st device_path use_cached sc st' h
  intro c hc
  have hpay := buildServiceCollection_payload st.tables device_path sc hb c hc
  unfold charPayloadSize at hpay
  cases hm : pget c.obj "MTU" with
  | none =>
    rw [hm] at hpay
    injection hpay with hpay
    exact Or.inl ⟨rfl, by omega⟩
  | some v =>
    rw [hm] at hpay
    cases v with
    | vInt m =>
      injection hpay with hpay
      exact Or.inr ⟨m, rfl, hpay.symm⟩
    | vBool b => cases hpay
    | vStr s => cases hpay
    | vBytes bs => cases hpay
    | vStrList l => cases hpay

/-- C9 (witness): in a built snapshot, the characteristic carrying
`MTU = 185` has payload size `182 = 185 - 3`. -/
theorem c9_mtu_payload_witness :
    (pget (⟨[("MTU", Value.vInt 185)], "/dev/service0001/char0002",
        some (Value.vStr "180d"), "/dev/service0001", 182⟩ :
        BleakGATTCharacteristicBlueZDBus).obj "MTU" = none ∧
      (⟨[("MTU", Value.vInt 185)], "/dev/service0001/char0002",
        some (Value.vStr "180d"), "/dev/service0001", 182⟩ :
        BleakGATTCharacteristicBlueZDBus).max_write_without_response_size = 20) ∨
    (∃ m : Int,
      pget (⟨[("MTU", Value.vInt 185)], "/dev/service0001/char0002",
        some (Value.vStr "180d"), "/dev/service0001", 182⟩ :
        BleakGATTCharacteristicBlueZDBus).obj "MTU" = some (.vInt m) ∧
      (⟨[("MTU", Value.vInt 185)], "/dev/service0001/char0002",
        some (Value.vStr "180d"), "/dev/service0001", 182⟩ :
        BleakGATTCharacteristicBlueZDBus).max_write_without_response_size = m - 3) :=
  c9_mtu_payload
    ⟨none,
     ⟨[("/dev", [(DEVICE_INTERFACE, [("ServicesResolved", Value.vBool true)])]),
       ("/dev/service0001",
        [(GATT_SERVICE_INTERFACE, [("UUID", Value.vStr "180d")])]),
       ("/dev/service0001/char0002",
        [(GATT_CHARACTERISTIC_INTERFACE, [("MTU", Value.vInt 185)])]),
       ("/dev/service0001/char0003",
        [(GATT_CHARACTERISTIC_INTERFACE, [("Flags", Value.vStrList ["read"])])])],
      [("/dev", ["/dev/service0001"])],
      [("/dev/service0001", ["/dev/service0001/char0002", "/dev/service0001/char0003"])],
      []⟩, [], [], [], [], []⟩
    "/dev" false
    ⟨[⟨[("UUID", Value.vStr "180d")], "/dev/service0001"⟩],
     [⟨[("MTU", Value.vInt 185)], "/dev/service0001/char0002",
       some (Value.vStr "180d"), "/dev/service0001", 182⟩,
      ⟨[("Flags", Value.vStrList ["read"])], "/dev/service0001/char0003",
       some (Value.vStr "180d"), "/dev/service0001", 20⟩],
     []⟩
    ⟨none,
     ⟨[("/dev", [(DEVICE_INTERFACE, [("ServicesResolved", Value.vBool true)])]),
       ("/dev/service0001",
        [(GATT_SERVICE_INTERFACE, [("UUID", Value.vStr "180d")])]),
       ("/dev/service0001/char0002",
        [(GATT_CHARACTERISTIC_INTERFACE, [("MTU", Value.vInt 185)])]),
       ("/dev/service0001/char0003",
        [(GATT_CHARACTERISTIC_INTERFACE, [("Flags", Value.vStrList ["read"])])])],
      [("/dev", ["/dev/service0001"])],
      [("/dev/service0001", ["/dev/service0001/char0002", "/dev/service0001/char0003"])],
      []⟩, [], [], [], [],
     [("/dev",
       ⟨[⟨[("UUID", Value.vStr "180d")], "/dev/service0001"⟩],
        [⟨[("MTU", Value.vInt 185)], "/dev/service0001/char0002",
          some (Value.vStr "180d"), "/dev/service0001", 182⟩,
         ⟨[("Flags", Value.vStrList ["read"])], "/dev/service0001/char0003",
          some (Value.vStr "180d"), "/dev/service0001", 20⟩],
        []⟩)]⟩
    (by decide)
    ⟨[("MTU", Value.vInt 185)], "/dev/service0001/char0002",
      some (Value.vStr "180d"), "/dev/service0001", 182⟩
    (by decide)

/-- C10: constructing a `BleakScannerBlueZDBus` with scanning mode
`"passive"` and no `or_patterns` entry in the `bluez` arguments raises a
`BleakError` at construction time, before any scanning operation. -/
theorem c10_passive_requires_or_patterns
    (service_uuids : Option (List String)) (bluez : BlueZScannerArgs)
    (kwargs_adapter kwargs_device : Option String)
    (kwargs_filters : Option (List (String × Value)))
    (h : bluez.or_patterns = none) :
    scannerInit service_uuids "passive" bluez kwargs_adapter kwargs_device
      kwargs_filters = .error "passive scanning mode requires bluez or_patterns" := by
  simp [scannerInit, h, truthyList]

/-- C10 (witness): the theorem at an all-default construction. -/
theorem c10_passive_requires_or_patterns_witness :
    scannerInit none "passive" ⟨none, none⟩ none none none =
      .error "passive scanning mode requires bluez or_patterns" :=
  c10_passive_requires_or_patterns none ⟨none, none⟩ none none none rfl

/-- C2 (witness): the amended theorem applied to a dispatch in which the
single registered watcher removes itself while being invoked. -/
theorem c2_snapshot_witness :
    (⟨"/org/bluez/hci0/dev_AA", 7, 8⟩ : DeviceWatcher) ∈
      (⟨[⟨"/org/bluez/hci0/dev_AA", 7, 8⟩], []⟩ : WatcherDispatchState).watchers ∧
    7 ∈ (runConnectedWatchers (fun _ _ => []) "/org/bluez/hci0/dev_AA"
          ⟨[⟨"/org/bluez/hci0/dev_AA", 7, 8⟩], []⟩).invoked :=
  ⟨by decide,
   c2_snapshot_amended (fun _ _ => []) "/org/bluez/hci0/dev_AA"
     ⟨[⟨"/org/bluez/hci0/dev_AA", 7, 8⟩], []⟩
     ⟨"/org/bluez/hci0/dev_AA", 7, 8⟩ (by decide) rfl⟩

end BleakBlueZ
